import Mathlib

/-!
Verification of the installer orchestrator (`main` in the repository's main
source file, plus `remote/twrp.go`) against its natural-language specification.

The program is a straight-line sequence of phases with early process exits.
We embed it shallowly: every external call (adb, fastboot, download requests,
console reads, `os.Executable`, `os.Setenv`, `os.Chdir`) takes its result from
an `Env` record of injected outcomes, and the run produces a trace of observable
events, the final set of files in the working directory, and a termination
result (an `os.Exit` code, or a Go panic).
-/

namespace Installer

/-- Modelled from the spec (§3): the device-mode enum reported by the adb and
fastboot probes.  The `android` package defining these constants is not part of
the provided sources; the spec's `DeviceMode` enum is
{Unknown, NoDevice, AdbUnauthorized, AdbReady, FastbootReady,
UsbPermissionDenied}.  The source refers to `android.NoDeviceFound`
(here `NoDevice`), `android.DeviceUnauthorized` (here `AdbUnauthorized`) and
`android.NoUsbPerms` (here `UsbPermissionDenied`). -/
inductive DeviceMode where
  | Unknown
  | NoDevice
  | AdbUnauthorized
  | AdbReady
  | FastbootReady
  | UsbPermissionDenied
  deriving DecidableEq

/-- The four artifacts fetched by the run, in the spec's vocabulary:
`updatePackage` is the Nethunter update zip, `recoveryTWRP` is the TWRP image
(booted to install the update package, the spec's recovery-B), `recoveryOxygen`
is the OxygenOS recovery image (booted to flash the factory image, the spec's
recovery-A), and `factoryImage` is the factory image. -/
inductive Artifact where
  | updatePackage
  | recoveryTWRP
  | recoveryOxygen
  | factoryImage
  deriving DecidableEq

/-- Observable actions of the program: console output, console reads, device
probes and commands, fixed sleeps, download requests and transfers. -/
inductive Event where
  | echo (msg : String)
  | readLine
  | probeAdb
  | probeFastboot
  | adbReboot (target : String)
  | sleepMs (n : Nat)
  | getProduct
  | unlockedQuery
  | unlock
  | fastbootReboot
  | fetchRequest (a : Artifact)
  | twrpUrl (url : String)
  | statFile (name : String)
  | download (a : Artifact) (name : String)
  | fastbootBoot (path : String)
  | sideload (path : String)
  | pushFile (src : String) (dir : String)
  | shell (cmd : String)
  deriving DecidableEq

/-- How a run terminates: `os.Exit code` via the program's `exit` helper, or a
Go `panic` (which bypasses `exit` and terminates the process with the Go
runtime's own status). -/
inductive RunResult where
  | exited (code : Nat)
  | panicked
  deriving DecidableEq

/-- The working directory, as the set (list) of file names present. -/
abbrev Files := List String

/-- Result of running a phase: either fall through to the next phase (`next`)
or terminate the process (`halt`).  Both carry the trace of events emitted by
the phase and the resulting working-directory contents. -/
inductive StepOut (α : Type) where
  | next (tr : List Event) (fs : Files) (a : α)
  | halt (tr : List Event) (fs : Files) (res : RunResult)

/-- Prepend the trace of an earlier phase to a later phase's outcome. -/
def StepOut.prependTrace {α : Type} (s : StepOut α) (pre : List Event) : StepOut α :=
  match s with
  | .next tr fs a => .next (pre ++ tr) fs a
  | .halt tr fs r => .halt (pre ++ tr) fs r

/-- The trace of events emitted, for either outcome. -/
def StepOut.outTrace {α : Type} : StepOut α → List Event
  | .next tr _ _ => tr
  | .halt tr _ _ => tr

/-- The working-directory contents after the step. -/
def StepOut.outFiles {α : Type} : StepOut α → Files
  | .next _ fs _ => fs
  | .halt _ fs _ => fs

/-- The termination result, or `none` when the step falls through. -/
def StepOut.outRes {α : Type} : StepOut α → Option RunResult
  | .next _ _ _ => none
  | .halt _ _ r => some r

/-- Success exit codes (source: `SuccessBase = 1<<5 + iota`). -/
def SuccessBase : Nat := 2 ^ 5 + 0

/-- `SuccessUserAbort = 1<<5 + 1 = 33`. -/
def SuccessUserAbort : Nat := 2 ^ 5 + 1

/-- `SuccessBootloaderUnlocked = 1<<5 + 2 = 34`. -/
def SuccessBootloaderUnlocked : Nat := 2 ^ 5 + 2

/-- `Success = 0`. -/
def Success : Nat := 0

/-- Error exit codes (source: `ErrorBase = 1<<6 + iota`). -/
def ErrorBase : Nat := 2 ^ 6 + 0

/-- `ErrorPrereqs = 1<<6 + 1 = 65`. -/
def ErrorPrereqs : Nat := 2 ^ 6 + 1

/-- `ErrorUserInput = 1<<6 + 2 = 66`. -/
def ErrorUserInput : Nat := 2 ^ 6 + 2

/-- `ErrorUsbPerms = 1<<6 + 3 = 67`. -/
def ErrorUsbPerms : Nat := 2 ^ 6 + 3

/-- `ErrorAdb = 1<<6 + 4 = 68`. -/
def ErrorAdb : Nat := 2 ^ 6 + 4

/-- `ErrorFastboot = 1<<6 + 5 = 69`. -/
def ErrorFastboot : Nat := 2 ^ 6 + 5

/-- `ErrorRemote = 1<<6 + 6 = 70`. -/
def ErrorRemote : Nat := 2 ^ 6 + 6

/-- `ErrorTWRP = 1<<6 + 7 = 71`. -/
def ErrorTWRP : Nat := 2 ^ 6 + 7

/-- The documented exit codes of the spec's §6 band description:
`Success`, the reserved success band, and the reserved error band. -/
def DocCodes : List Nat :=
  [Success, SuccessUserAbort, SuccessBootloaderUnlocked,
   ErrorPrereqs, ErrorUserInput, ErrorUsbPerms, ErrorAdb, ErrorFastboot,
   ErrorRemote, ErrorTWRP]

/-- Modelled from the spec: user-facing message constants (`MsgWelcome` etc.)
are defined in a source file of this repository that is not among the provided
sources; their exact wording is immaterial to every claim, so each is a fixed
distinct literal. -/
def MsgWelcome : String := "MsgWelcome"

/-- Modelled from the spec: see `MsgWelcome`. -/
def MsgIncompleteZip : String := "MsgIncompleteZip"

/-- Modelled from the spec: see `MsgWelcome`. -/
def MsgAdbIssue : String := "MsgAdbIssue"

/-- Modelled from the spec: see `MsgWelcome`. -/
def MsgFixPerms : String := "MsgFixPerms"

/-- Modelled from the spec: see `MsgWelcome`. -/
def MsgFastbootNoDeviceFound : String := "MsgFastbootNoDeviceFound"

/-- Modelled from the spec: see `MsgWelcome`. -/
def MsgUnlockSuccess : String := "MsgUnlockSuccess"

/-- Modelled from the spec: see `MsgWelcome`. -/
def MsgSuccess : String := "MsgSuccess"

/-- Injected outcomes of every external call the program makes, in program
order.  Each probe/console/network call appears as its own field because the
spec's data model says device state is externally mutable between calls, so no
two calls need agree.  `Option String` fields are Go `error` results
(`some msg` is a non-nil error). -/
structure Env where
  versionFlag : Bool
  goos : String
  exeErr : Option String
  setenvErr : Option String
  chdirErr : Option String
  consentLine : String
  consentErr : Option String
  adbToolchainErr : Option String
  fbToolchainErr : Option String
  fbDetectStatus : DeviceMode
  adbVerifyStatus : DeviceMode
  adbVerifyErr : Option String
  adbRebootErr : Option String
  fbPostRebootStatus : DeviceMode
  fbPostRebootErr : Option String
  fbVerifyStatus : DeviceMode
  fbVerifyErr : Option String
  productStr : String
  productErr : Option String
  unlockedVal : Bool
  unlockedErr : Option String
  unlockErr : Option String
  nethunterFile : String
  nethunterReqErr : Option String
  nethunterDlErr : Option String
  twrpReqErr : Option String
  twrpDlErr : Option String
  oxygenFile : String
  oxygenReqErr : Option String
  oxygenDlErr : Option String
  factoryFile : String
  factoryReqErr : Option String
  factoryDlErr : Option String
  initialFiles : Files
  bootOxygenErr : Option String
  sideloadPromptErr : Option String
  sideloadErr : Option String
  fastbootPromptErr : Option String
  bootTwrpErr : Option String
  pushErr : Option String
  installErr : Option String
  wipeCacheErr : Option String
  wipeDalvikErr : Option String
  wipeDataErr : Option String
  finalRebootErr : Option String

/-- Embeds the program's `exit` helper: on Windows it first prints
"\nPress [Enter] to exit..." and blocks on a console read before `os.Exit`;
elsewhere it exits immediately.  These are the extra events appended to the
trace of every `exit` call. -/
def exitTail (env : Env) : List Event :=
  if env.goos = "windows" then
    [.echo "\nPress [Enter] to exit...", .readLine]
  else []

/-- A phase halt through the program's `exit(code)` helper. -/
def exitHalt {α : Type} (env : Env) (tr : List Event) (fs : Files) (code : Nat) :
    StepOut α :=
  .halt (tr ++ exitTail env) fs (.exited code)

/-- Embeds `main` lines 131-185: the `--version` flag, `os.Executable`
(whose failure `panic`s, bypassing `exit`), `os.Setenv` on PATH, `os.Chdir`
(failure only warns), the welcome banner, the consent prompt (a non-"yes"
answer aborts with `SuccessUserAbort`), and the two toolchain checks of
`adb.Status()` / `fastboot.Status()` whose errors exit `ErrorPrereqs`. -/
def startPhase (env : Env) : StepOut Unit :=
  let fs := env.initialFiles
  if env.versionFlag then
    exitHalt env [.echo "Nethunter installer version %s %s/%s"] fs Success
  else
    match env.exeErr with
    | some _ => .halt [] fs .panicked
    | none =>
      match env.setenvErr with
      | some e =>
          exitHalt env [.echo ("Failed to set PATH to include installer tools: " ++ e)]
            fs ErrorPrereqs
      | none =>
        let trChdir : List Event :=
          match env.chdirErr with
          | some _ => [.echo "Warning: failed to change working directory"]
          | none => []
        let tr0 := trChdir ++
          [.echo MsgWelcome,
           .echo "Are you ready to install Nethunter? (yes/no): ", .readLine]
        match env.consentErr with
        | some e =>
            exitHalt env (tr0 ++ [.echo ("Failed to read input: " ++ e)]) fs ErrorUserInput
        | none =>
          if env.consentLine = "yes" then
            let tr1 := tr0 ++ [.echo "", .echo "Verifying installer tools...", .probeAdb]
            match env.adbToolchainErr with
            | some e =>
                exitHalt env
                  (tr1 ++ [.echo ("Failed to run adb: " ++ e), .echo MsgIncompleteZip])
                  fs ErrorPrereqs
            | none =>
              let tr2 := tr1 ++ [.probeFastboot]
              match env.fbToolchainErr with
              | some e =>
                  exitHalt env
                    (tr2 ++ [.echo ("Failed to run fastboot: " ++ e), .echo MsgIncompleteZip])
                    fs ErrorPrereqs
              | none => .next tr2 fs ()
          else
            exitHalt env (tr0 ++ [.echo "", .echo "Aborting installation."]) fs
              SuccessUserAbort

/-- Embeds `main` lines 187-207: probe `fastboot.Status()` (error discarded);
if it reports no device we are in adb mode, so run `verifyAdbStatusOrAbort`
(lines 66-79: status error or NoDevice/AdbUnauthorized exit `ErrorAdb`,
UsbPermissionDenied exits `ErrorUsbPerms`), then `adb.Reboot("bootloader")`,
a flat 7000 ms sleep, and a single fastboot re-probe whose error-or-NoDevice
outcome exits `ErrorAdb`.  If the first probe saw a device the phase falls
straight through with no reboot. -/
def detectPhase (env : Env) (fs : Files) : StepOut Unit :=
  let tr0 : List Event := [.echo "Checking USB permissions...", .probeFastboot]
  if env.fbDetectStatus = .NoDevice then
    let tr1 := tr0 ++ [.probeAdb]
    match env.adbVerifyErr with
    | some e => exitHalt env (tr1 ++ [.echo ("Failed to get adb status: " ++ e)]) fs ErrorAdb
    | none =>
      if env.adbVerifyStatus = .NoDevice ∨ env.adbVerifyStatus = .AdbUnauthorized then
        exitHalt env (tr1 ++ [.echo MsgAdbIssue]) fs ErrorAdb
      else if env.adbVerifyStatus = .UsbPermissionDenied then
        exitHalt env (tr1 ++ [.echo MsgFixPerms]) fs ErrorUsbPerms
      else
        let tr2 := tr1 ++ [.echo "Rebooting your device into bootloader...",
                           .adbReboot "bootloader"]
        match env.adbRebootErr with
        | some e =>
            exitHalt env (tr2 ++ [.echo ("Failed to reboot into bootloader: " ++ e)]) fs
              ErrorAdb
        | none =>
          let tr3 := tr2 ++ [.sleepMs 7000, .probeFastboot]
          if env.fbPostRebootErr.isSome ∨ env.fbPostRebootStatus = .NoDevice then
            exitHalt env (tr3 ++ [.echo "Failed to reboot device into bootloader!"]) fs
              ErrorAdb
          else .next tr3 fs ()
  else .next tr0 fs ()

/-- Embeds `verifyFastbootStatusOrAbort` (lines 81-94), called at line 211:
status error or NoDevice exits `ErrorFastboot`; UsbPermissionDenied exits
`ErrorUsbPerms`; otherwise fall through. -/
def verifyFastbootPhase (env : Env) (fs : Files) : StepOut Unit :=
  let tr0 : List Event := [.probeFastboot]
  match env.fbVerifyErr with
  | some e =>
      exitHalt env (tr0 ++ [.echo ("Failed to get fastboot status: " ++ e)]) fs ErrorFastboot
  | none =>
    if env.fbVerifyStatus = .NoDevice then
      exitHalt env (tr0 ++ [.echo MsgFastbootNoDeviceFound]) fs ErrorFastboot
    else if env.fbVerifyStatus = .UsbPermissionDenied then
      exitHalt env (tr0 ++ [.echo MsgFixPerms]) fs ErrorUsbPerms
    else .next tr0 fs ()

/-- Embeds `main` lines 221-225.  The source reads

    if "QC_Reference_Phone" == product {
        // Assume this is a cheeseburger (OnePlus5)
        product := "cheeseburger"
    }

The `:=` inside the block declares a new block-scoped variable shadowing the
outer `product`; the inner variable is immediately discarded when the block
ends, so the outer `product` is unchanged on every input.  This definition
embeds that (vacuous) semantics faithfully. -/
def normalizeProduct (product : String) : String :=
  if "QC_Reference_Phone" = product then
    product
  else product

/-- The device-codename normalization the spec describes for `IdentifyDevice`
("normalize one known vendor alias to a canonical device codename"): the
vendor alias `QC_Reference_Phone` maps to the canonical codename
`cheeseburger`.  Stated from the spec's words, for comparison with
`normalizeProduct`, the behaviour of the source. -/
def specNormalizeProduct (product : String) : String :=
  if "QC_Reference_Phone" = product then "cheeseburger" else product

/-- Embeds `main` lines 213-225: query `fastboot.GetProduct()` (failure exits
`ErrorFastboot`), then the alias check of `normalizeProduct`. -/
def identifyPhase (env : Env) (fs : Files) : StepOut String :=
  let tr0 : List Event := [.echo "Identifying your device...", .getProduct]
  match env.productErr with
  | some e =>
      exitHalt env (tr0 ++ [.echo ("Failed to get device product info: " ++ e)]) fs
        ErrorFastboot
  | none => .next tr0 fs (normalizeProduct env.productStr)

/-- Embeds `main` lines 227-241: query `fastboot.Unlocked()`; a query error is
only a logged warning.  If the device does not report unlocked: announce,
`fastboot.Unlock()` (failure exits `ErrorFastboot`), `fastboot.Reboot()`
(its error is discarded by the source), and exit `SuccessBootloaderUnlocked`.
Otherwise fall through to the fetch phases. -/
def unlockPhase (env : Env) (fs : Files) : StepOut Unit :=
  let trW : List Event :=
    match env.unlockedErr with
    | some e => [.echo ("Warning: unable to determine bootloader lock state: " ++ e)]
    | none => []
  let tr0 := Event.unlockedQuery :: trW
  if env.unlockedVal = false then
    let tr1 := tr0 ++
      [.echo "Unlocking bootloader, you will need to confirm this on your device...",
       .unlock]
    match env.unlockErr with
    | some e =>
        exitHalt env (tr1 ++ [.echo ("Failed to unlock bootloader: " ++ e)]) fs ErrorFastboot
    | none =>
        exitHalt env (tr1 ++ [.fastbootReboot, .echo MsgUnlockSuccess]) fs
          SuccessBootloaderUnlocked
  else .next tr0 fs ()

/-- Source constant from `remote/twrp.go`. -/
def TWRPEndpoint : String := "https://dl.twrp.me"

/-- Source constant from `remote/twrp.go`. -/
def TWRPVersionPrefix : String := "twrp-3.1.1-1-"

/-- Source constant from `remote/twrp.go`. -/
def TWRPExtension : String := ".img"

/-- Embeds `genTWRPDeviceUrl` from `remote/twrp.go`. -/
def genTWRPDeviceUrl (device : String) : String :=
  TWRPEndpoint ++ "/" ++ device ++ "/" ++ TWRPVersionPrefix ++ device ++ TWRPExtension

/-- Final URL path component: everything after the last '/' (structural
recursion over the character list, so it evaluates by kernel reduction). -/
def lastComponentAux : List Char → List Char → List Char
  | [], acc => acc.reverse
  | c :: cs, acc => if c = '/' then lastComponentAux cs [] else lastComponentAux cs (c :: acc)

/-- Modelled from the spec (§6): the download capability's
`newRequest(url) -> Request{filename, headers}` derives the request's local
file name from the URL; we take the final path component.  The `net` package
implementing it is an external collaborator, out of the spec's scope. -/
def urlFilename (url : String) : String :=
  String.mk (lastComponentAux url.data [])

/-- Embeds one artifact download block (the `os.Stat` / `req.Download()`
pattern of `main` lines 251-267, 276-292, 301-317, 327-343): stat
`statTarget`; when it exists, skip the transfer and keep `filename` (the
request's own file name) as the local path; otherwise download, which on
success creates `filename` in the working directory and returns it, and on
failure exits `ErrorRemote` after an empty line and `failMsg`. -/
def downloadIfAbsent (env : Env) (fs : Files) (a : Artifact)
    (statTarget filename : String) (dlErr : Option String) (failMsg : String) :
    StepOut String :=
  if statTarget ∈ fs then
    .next [.statFile statTarget] fs filename
  else
    match dlErr with
    | some e =>
        exitHalt env [.statFile statTarget, .download a filename, .echo "",
                      .echo (failMsg ++ e)] fs ErrorRemote
    | none => .next [.statFile statTarget, .download a filename] (filename :: fs) filename

/-- Embeds `main` lines 244-267: `remote.RequestNethunter()` (a request error
exits `ErrorRemote`), then the stat/download block keyed on the update
package's own file name. -/
def fetchNethunter (env : Env) (fs : Files) : StepOut String :=
  let tr0 : List Event :=
    [.echo "Downloading the latest release for your device (%q)...",
     .fetchRequest .updatePackage]
  match env.nethunterReqErr with
  | some e => exitHalt env (tr0 ++ [.echo ("Failed to download Nethunter: " ++ e)]) fs
      ErrorRemote
  | none =>
      (downloadIfAbsent env fs .updatePackage env.nethunterFile env.nethunterFile
        env.nethunterDlErr "Failed to download Nethunter: ").prependTrace tr0

/-- Embeds `main` lines 269-292 together with `RequestTWRP` from
`remote/twrp.go`: the request URL is `genTWRPDeviceUrl product`, the local
file name derives from that URL, and the stat/download block is keyed on that
file name. -/
def fetchTWRP (env : Env) (fs : Files) (product : String) : StepOut String :=
  let url := genTWRPDeviceUrl product
  let tr0 : List Event :=
    [.echo "Downloading TWRP for your device...", .fetchRequest .recoveryTWRP, .twrpUrl url]
  match env.twrpReqErr with
  | some e => exitHalt env (tr0 ++ [.echo ("Failed to request TWRP: " ++ e)]) fs ErrorRemote
  | none =>
      (downloadIfAbsent env fs .recoveryTWRP (urlFilename url) (urlFilename url)
        env.twrpDlErr "Failed to download TWRP: ").prependTrace tr0

/-- Embeds `main` lines 294-317: `remote.RequestOxygenRecovery()` (note the
source reuses the "Failed to request TWRP" message on request failure), then
the stat/download block.  The source's line 302 stats the `twrp` variable,
not the oxygen recovery's own file name, so `statTarget` here is the TWRP
local path produced by the previous block. -/
def fetchOxygen (env : Env) (fs : Files) (twrpVar : String) : StepOut String :=
  let tr0 : List Event :=
    [.echo "Downloading OnePlus5 OxygenOS recovery for your device...",
     .fetchRequest .recoveryOxygen]
  match env.oxygenReqErr with
  | some e => exitHalt env (tr0 ++ [.echo ("Failed to request TWRP: " ++ e)]) fs ErrorRemote
  | none =>
      (downloadIfAbsent env fs .recoveryOxygen twrpVar env.oxygenFile
        env.oxygenDlErr "Failed to download Oxygen Recovery: ").prependTrace tr0

/-- Embeds `main` lines 319-343: `remote.RequestFactory()`, then the
stat/download block keyed on the factory image's own file name. -/
def fetchFactory (env : Env) (fs : Files) : StepOut String :=
  let tr0 : List Event :=
    [.echo "Downloading OnePlus 5 factory for your device...", .fetchRequest .factoryImage]
  match env.factoryReqErr with
  | some e =>
      exitHalt env (tr0 ++ [.echo ("Failed to request OnePlus 5 Factory image: " ++ e)]) fs
        ErrorRemote
  | none =>
      (downloadIfAbsent env fs .factoryImage env.factoryFile env.factoryFile
        env.factoryDlErr "Failed to download factory image: ").prependTrace tr0

/-- Embeds `main` lines 244-343, the whole artifact-fetch sequence, in source
order: update package, TWRP, Oxygen recovery, factory image.  Yields the four
local paths `(zip, twrp, oxygenrecovery, factory)`. -/
def fetchPhase (env : Env) (fs : Files) (product : String) :
    StepOut (String × String × String × String) :=
  match fetchNethunter env fs with
  | .halt tr f r => .halt tr f r
  | .next tr1 fs1 zip =>
    match fetchTWRP env fs1 product with
    | .halt tr f r => .halt (tr1 ++ tr) f r
    | .next tr2 fs2 twrp =>
      match fetchOxygen env fs2 twrp with
      | .halt tr f r => .halt (tr1 ++ (tr2 ++ tr)) f r
      | .next tr3 fs3 oxy =>
        match fetchFactory env fs3 with
        | .halt tr f r => .halt (tr1 ++ (tr2 ++ (tr3 ++ tr))) f r
        | .next tr4 fs4 fact =>
            .next (tr1 ++ (tr2 ++ (tr3 ++ tr4))) fs4 (zip, twrp, oxy, fact)

/-- Embeds `main` lines 345-365: `fastboot.Boot(oxygenrecovery)` (failure exits
`ErrorTWRP`), the on-device sideload-mode prompt (read failure exits
`ErrorUserInput`), and `adb.Sideload(factory)` (failure exits `ErrorTWRP`). -/
def flashFactoryPhase (env : Env) (fs : Files) (oxy fact : String) : StepOut Unit :=
  let tr0 : List Event :=
    [.echo "Temporarily booting Oxygen recovery to flash latest OxygenOS...",
     .fastbootBoot oxy]
  match env.bootOxygenErr with
  | some e =>
      exitHalt env (tr0 ++ [.echo ("Failed to boot into Oxygen Recovery: " ++ e)]) fs
        ErrorTWRP
  | none =>
    let tr1 := tr0 ++
      [.echo "On OnePlus5, choose Install from USB option in the recovery screen, tap OK to confirm. Press enter when in sideload mode",
       .readLine]
    match env.sideloadPromptErr with
    | some e => exitHalt env (tr1 ++ [.echo ("Failed to read input: " ++ e)]) fs ErrorUserInput
    | none =>
      let tr2 := tr1 ++ [.sideload fact]
      match env.sideloadErr with
      | some e =>
          exitHalt env (tr2 ++ [.echo ("Failed to flash Factory zip file: " ++ e)]) fs
            ErrorTWRP
      | none => .next tr2 fs ()

/-- Embeds `main` lines 367-398: the back-to-fastboot prompt (read failure
exits `ErrorUserInput`), `fastboot.Boot(twrp)` (failure exits `ErrorTWRP`), a
flat 10000 ms recovery settle sleep, `adb.PushFg(zip, "/sdcard")` (failure
exits `ErrorAdb`), the `twrp install` shell command (failure exits
`ErrorTWRP`), and a flat 2000 ms pause. -/
def flashUpdatePhase (env : Env) (fs : Files) (zip twrp : String) : StepOut Unit :=
  let tr0 : List Event :=
    [.echo "Reboot back into fastboot when completed.  Press return when in fastboot mode",
     .readLine]
  match env.fastbootPromptErr with
  | some e => exitHalt env (tr0 ++ [.echo ("Failed to read input: " ++ e)]) fs ErrorUserInput
  | none =>
    let tr1 := tr0 ++ [.echo "Temporarily booting TWRP to flash Nethunter update zip...",
                       .fastbootBoot twrp]
    match env.bootTwrpErr with
    | some e => exitHalt env (tr1 ++ [.echo ("Failed to boot TWRP: " ++ e)]) fs ErrorTWRP
    | none =>
      let tr2 := tr1 ++ [.sleepMs 10000,
                         .echo "Transferring the Nethunter update zip to your device...",
                         .pushFile zip "/sdcard"]
      match env.pushErr with
      | some e =>
          exitHalt env (tr2 ++ [.echo ("Failed to push Nethunter update zip to device: " ++ e)])
            fs ErrorAdb
      | none =>
        let tr3 := tr2 ++ [.echo "Installing Nethunter, please keep your device connected...",
                           .shell ("twrp install /sdcard/" ++ zip)]
        match env.installErr with
        | some e =>
            exitHalt env (tr3 ++ [.echo ("Failed to flash Nethunter update zip: " ++ e)]) fs
              ErrorTWRP
        | none => .next (tr3 ++ [.sleepMs 2000]) fs ()

/-- Embeds `main` lines 400-418: the three `twrp wipe` shell commands in fixed
order cache, dalvik, data, each followed by a flat 1000 ms settle sleep; any
failure exits `ErrorTWRP`. -/
def wipePhase (env : Env) (fs : Files) : StepOut Unit :=
  let tr0 : List Event := [.echo "Wiping your device without wiping /data/media...",
                           .shell "twrp wipe cache"]
  match env.wipeCacheErr with
  | some e => exitHalt env (tr0 ++ [.echo ("Failed to wipe cache: " ++ e)]) fs ErrorTWRP
  | none =>
    let tr1 := tr0 ++ [.sleepMs 1000, .shell "twrp wipe dalvik"]
    match env.wipeDalvikErr with
    | some e => exitHalt env (tr1 ++ [.echo ("Failed to wipe dalvik: " ++ e)]) fs ErrorTWRP
    | none =>
      let tr2 := tr1 ++ [.sleepMs 1000, .shell "twrp wipe data"]
      match env.wipeDataErr with
      | some e => exitHalt env (tr2 ++ [.echo ("Failed to wipe data: " ++ e)]) fs ErrorTWRP
      | none => .next (tr2 ++ [.sleepMs 1000]) fs ()

/-- Embeds `main` lines 420-428: the success banner, `adb.Reboot("")` (failure
prints manual-recovery instructions and exits `ErrorAdb`), and `exit(Success)`. -/
def finalRebootPhase (env : Env) (fs : Files) : StepOut Unit :=
  let tr0 : List Event := [.echo MsgSuccess, .adbReboot ""]
  match env.finalRebootErr with
  | some e =>
      exitHalt env
        (tr0 ++ [.echo ("Failed to reboot: " ++ e),
                 .echo "\nPlease reboot your device manually by going to Reboot > System > Do Not Install"])
        fs ErrorAdb
  | none => exitHalt env tr0 fs Success

/-- The run from the wipe phase on. -/
def runFromWipe (env : Env) (fs : Files) : StepOut Unit :=
  match wipePhase env fs with
  | .halt tr f r => .halt tr f r
  | .next tr f _ => (finalRebootPhase env f).prependTrace tr

/-- The run from the update-flash phase on. -/
def runFromFlashUpdate (env : Env) (fs : Files) (zip twrp : String) : StepOut Unit :=
  match flashUpdatePhase env fs zip twrp with
  | .halt tr f r => .halt tr f r
  | .next tr f _ => (runFromWipe env f).prependTrace tr

/-- The run from the factory-flash phase on. -/
def runFromFlashFactory (env : Env) (fs : Files) (zip twrp oxy fact : String) :
    StepOut Unit :=
  match flashFactoryPhase env fs oxy fact with
  | .halt tr f r => .halt tr f r
  | .next tr f _ => (runFromFlashUpdate env f zip twrp).prependTrace tr

/-- The run from the artifact-fetch phase on. -/
def runFromFetch (env : Env) (fs : Files) (product : String) : StepOut Unit :=
  match fetchPhase env fs product with
  | .halt tr f r => .halt tr f r
  | .next tr f paths =>
      (runFromFlashFactory env f paths.1 paths.2.1 paths.2.2.1 paths.2.2.2).prependTrace tr

/-- The run from the bootloader-unlock phase on. -/
def runFromUnlock (env : Env) (fs : Files) (product : String) : StepOut Unit :=
  match unlockPhase env fs with
  | .halt tr f r => .halt tr f r
  | .next tr f _ => (runFromFetch env f product).prependTrace tr

/-- The run from the device-identification phase on. -/
def runFromIdentify (env : Env) (fs : Files) : StepOut Unit :=
  match identifyPhase env fs with
  | .halt tr f r => .halt tr f r
  | .next tr f product => (runFromUnlock env f product).prependTrace tr

/-- The run from the fastboot-verification phase on. -/
def runFromVerify (env : Env) (fs : Files) : StepOut Unit :=
  match verifyFastbootPhase env fs with
  | .halt tr f r => .halt tr f r
  | .next tr f _ => (runFromIdentify env f).prependTrace tr

/-- The run from the device-mode-detection phase on. -/
def runFromDetect (env : Env) (fs : Files) : StepOut Unit :=
  match detectPhase env fs with
  | .halt tr f r => .halt tr f r
  | .next tr f _ => (runFromVerify env f).prependTrace tr

/-- The whole program: `main` of the main source file, from flag parsing to the
final reboot, under the injected call outcomes of `env`. -/
def installerMain (env : Env) : StepOut Unit :=
  match startPhase env with
  | .halt tr f r => .halt tr f r
  | .next tr f _ => (runFromDetect env f).prependTrace tr

/-- A fully successful environment: consent given, device already in fastboot
mode and already unlocked, no files cached, every call succeeds.  Witnesses
and counterexamples below are built from this record by field updates. -/
def envBase : Env :=
  { versionFlag := false
    goos := "linux"
    exeErr := none
    setenvErr := none
    chdirErr := none
    consentLine := "yes"
    consentErr := none
    adbToolchainErr := none
    fbToolchainErr := none
    fbDetectStatus := .FastbootReady
    adbVerifyStatus := .AdbReady
    adbVerifyErr := none
    adbRebootErr := none
    fbPostRebootStatus := .FastbootReady
    fbPostRebootErr := none
    fbVerifyStatus := .FastbootReady
    fbVerifyErr := none
    productStr := "cheeseburger"
    productErr := none
    unlockedVal := true
    unlockedErr := none
    unlockErr := none
    nethunterFile := "nethunter.zip"
    nethunterReqErr := none
    nethunterDlErr := none
    twrpReqErr := none
    twrpDlErr := none
    oxygenFile := "oxygen-recovery.img"
    oxygenReqErr := none
    oxygenDlErr := none
    factoryFile := "factory.zip"
    factoryReqErr := none
    factoryDlErr := none
    initialFiles := []
    bootOxygenErr := none
    sideloadPromptErr := none
    sideloadErr := none
    fastbootPromptErr := none
    bootTwrpErr := none
    pushErr := none
    installErr := none
    wipeCacheErr := none
    wipeDalvikErr := none
    wipeDataErr := none
    finalRebootErr := none }

/-- The artifacts for which a fetch request was issued, in trace order. -/
def fetchedArtifacts (tr : List Event) : List Artifact :=
  tr.filterMap fun e =>
    match e with
    | .fetchRequest a => some a
    | _ => none

/-- The network transfers actually performed, in trace order. -/
def downloadsIn (tr : List Event) : List (Artifact × String) :=
  tr.filterMap fun e =>
    match e with
    | .download a n => some (a, n)
    | _ => none

/-- The TWRP request URLs issued, in trace order. -/
def urlsIn (tr : List Event) : List String :=
  tr.filterMap fun e =>
    match e with
    | .twrpUrl u => some u
    | _ => none

/-- The recovery shell commands issued, in trace order. -/
def shellsIn (tr : List Event) : List String :=
  tr.filterMap fun e =>
    match e with
    | .shell c => some c
    | _ => none

/-- The flat sleeps performed, in trace order (milliseconds). -/
def sleepsIn (tr : List Event) : List Nat :=
  tr.filterMap fun e =>
    match e with
    | .sleepMs n => some n
    | _ => none

/-- The images booted via `fastboot boot`, in trace order. -/
def bootsIn (tr : List Event) : List String :=
  tr.filterMap fun e =>
    match e with
    | .fastbootBoot p => some p
    | _ => none

/-! ### Shared helper lemmas -/

@[simp]
theorem shellsIn_nil : shellsIn [] = [] := rfl

@[simp]
theorem shellsIn_cons (e : Event) (tr : List Event) :
    shellsIn (e :: tr) =
      (match e with | .shell c => [c] | _ => []) ++ shellsIn tr := by
  unfold shellsIn
  cases e <;> simp

@[simp]
theorem shellsIn_append (l1 l2 : List Event) :
    shellsIn (l1 ++ l2) = shellsIn l1 ++ shellsIn l2 := by
  unfold shellsIn
  simp

@[simp]
theorem fetchedArtifacts_nil : fetchedArtifacts [] = [] := rfl

@[simp]
theorem fetchedArtifacts_cons (e : Event) (tr : List Event) :
    fetchedArtifacts (e :: tr) =
      (match e with | .fetchRequest a => [a] | _ => []) ++ fetchedArtifacts tr := by
  unfold fetchedArtifacts
  cases e <;> simp

@[simp]
theorem fetchedArtifacts_append (l1 l2 : List Event) :
    fetchedArtifacts (l1 ++ l2) = fetchedArtifacts l1 ++ fetchedArtifacts l2 := by
  unfold fetchedArtifacts
  simp

@[simp]
theorem downloadsIn_nil : downloadsIn [] = [] := rfl

@[simp]
theorem downloadsIn_cons (e : Event) (tr : List Event) :
    downloadsIn (e :: tr) =
      (match e with | .download a n => [(a, n)] | _ => []) ++ downloadsIn tr := by
  unfold downloadsIn
  cases e <;> simp

@[simp]
theorem downloadsIn_append (l1 l2 : List Event) :
    downloadsIn (l1 ++ l2) = downloadsIn l1 ++ downloadsIn l2 := by
  unfold downloadsIn
  simp

@[simp]
theorem urlsIn_nil : urlsIn [] = [] := rfl

@[simp]
theorem urlsIn_cons (e : Event) (tr : List Event) :
    urlsIn (e :: tr) =
      (match e with | .twrpUrl u => [u] | _ => []) ++ urlsIn tr := by
  unfold urlsIn
  cases e <;> simp

@[simp]
theorem urlsIn_append (l1 l2 : List Event) :
    urlsIn (l1 ++ l2) = urlsIn l1 ++ urlsIn l2 := by
  unfold urlsIn
  simp

@[simp]
theorem sleepsIn_nil : sleepsIn [] = [] := rfl

@[simp]
theorem sleepsIn_cons (e : Event) (tr : List Event) :
    sleepsIn (e :: tr) =
      (match e with | .sleepMs n => [n] | _ => []) ++ sleepsIn tr := by
  unfold sleepsIn
  cases e <;> simp

@[simp]
theorem sleepsIn_append (l1 l2 : List Event) :
    sleepsIn (l1 ++ l2) = sleepsIn l1 ++ sleepsIn l2 := by
  unfold sleepsIn
  simp

@[simp]
theorem bootsIn_nil : bootsIn [] = [] := rfl

@[simp]
theorem bootsIn_cons (e : Event) (tr : List Event) :
    bootsIn (e :: tr) =
      (match e with | .fastbootBoot p => [p] | _ => []) ++ bootsIn tr := by
  unfold bootsIn
  cases e <;> simp

@[simp]
theorem bootsIn_append (l1 l2 : List Event) :
    bootsIn (l1 ++ l2) = bootsIn l1 ++ bootsIn l2 := by
  unfold bootsIn
  simp

@[simp]
theorem shellsIn_exitTail (env : Env) : shellsIn (exitTail env) = [] := by
  unfold exitTail shellsIn
  split <;> rfl

@[simp]
theorem fetchedArtifacts_exitTail (env : Env) : fetchedArtifacts (exitTail env) = [] := by
  unfold exitTail fetchedArtifacts
  split <;> rfl

@[simp]
theorem downloadsIn_exitTail (env : Env) : downloadsIn (exitTail env) = [] := by
  unfold exitTail downloadsIn
  split <;> rfl

@[simp]
theorem urlsIn_exitTail (env : Env) : urlsIn (exitTail env) = [] := by
  unfold exitTail urlsIn
  split <;> rfl

@[simp]
theorem sleepsIn_exitTail (env : Env) : sleepsIn (exitTail env) = [] := by
  unfold exitTail sleepsIn
  split <;> rfl

@[simp]
theorem bootsIn_exitTail (env : Env) : bootsIn (exitTail env) = [] := by
  unfold exitTail bootsIn
  split <;> rfl

@[simp]
theorem unlock_not_mem_exitTail (env : Env) : Event.unlock ∉ exitTail env := by
  unfold exitTail
  split <;> decide

@[simp]
theorem fastbootReboot_not_mem_exitTail (env : Env) : Event.fastbootReboot ∉ exitTail env := by
  unfold exitTail
  split <;> decide

@[simp]
theorem adbReboot_not_mem_exitTail (env : Env) (t : String) :
    Event.adbReboot t ∉ exitTail env := by
  unfold exitTail
  split <;> simp

@[simp]
theorem fetchRequest_not_mem_exitTail (env : Env) (a : Artifact) :
    Event.fetchRequest a ∉ exitTail env := by
  unfold exitTail
  split <;> simp

@[simp]
theorem download_not_mem_exitTail (env : Env) (a : Artifact) (p : String) :
    Event.download a p ∉ exitTail env := by
  unfold exitTail
  split <;> simp

@[simp]
theorem statFile_not_mem_exitTail (env : Env) (p : String) :
    Event.statFile p ∉ exitTail env := by
  unfold exitTail
  split <;> simp

@[simp]
theorem outTrace_next {α : Type} (tr : List Event) (fs : Files) (a : α) :
    (StepOut.next tr fs a).outTrace = tr := rfl

@[simp]
theorem outTrace_halt {α : Type} (tr : List Event) (fs : Files) (r : RunResult) :
    (StepOut.halt (α := α) tr fs r).outTrace = tr := rfl

@[simp]
theorem outFiles_next {α : Type} (tr : List Event) (fs : Files) (a : α) :
    (StepOut.next tr fs a).outFiles = fs := rfl

@[simp]
theorem outFiles_halt {α : Type} (tr : List Event) (fs : Files) (r : RunResult) :
    (StepOut.halt (α := α) tr fs r).outFiles = fs := rfl

@[simp]
theorem outRes_next {α : Type} (tr : List Event) (fs : Files) (a : α) :
    (StepOut.next tr fs a).outRes = none := rfl

@[simp]
theorem outRes_halt {α : Type} (tr : List Event) (fs : Files) (r : RunResult) :
    (StepOut.halt (α := α) tr fs r).outRes = some r := rfl

@[simp]
theorem outTrace_prependTrace {α : Type} (s : StepOut α) (pre : List Event) :
    (s.prependTrace pre).outTrace = pre ++ s.outTrace := by
  cases s <;> rfl

@[simp]
theorem outFiles_prependTrace {α : Type} (s : StepOut α) (pre : List Event) :
    (s.prependTrace pre).outFiles = s.outFiles := by
  cases s <;> rfl

@[simp]
theorem outRes_prependTrace {α : Type} (s : StepOut α) (pre : List Event) :
    (s.prependTrace pre).outRes = s.outRes := by
  cases s <;> rfl

/-- No phase after the unlock phase ever emits the bootloader-unlock command or
the fastboot reboot that follows it: those two events appear only in
`unlockPhase`. -/
def NoUnlockEvents (tr : List Event) : Prop :=
  Event.unlock ∉ tr ∧ Event.fastbootReboot ∉ tr

theorem noUnlock_downloadIfAbsent (env : Env) (fs : Files) (a : Artifact)
    (statTarget filename : String) (dlErr : Option String) (failMsg : String) :
    NoUnlockEvents (downloadIfAbsent env fs a statTarget filename dlErr failMsg).outTrace := by
  unfold downloadIfAbsent NoUnlockEvents
  split <;> [skip; split] <;> simp [exitHalt]

theorem noUnlock_fetchNethunter (env : Env) (fs : Files) :
    NoUnlockEvents (fetchNethunter env fs).outTrace := by
  unfold fetchNethunter
  split
  · simp [NoUnlockEvents, exitHalt]
  · have h := noUnlock_downloadIfAbsent env fs .updatePackage env.nethunterFile
      env.nethunterFile env.nethunterDlErr "Failed to download Nethunter: "
    simp only [NoUnlockEvents, outTrace_prependTrace, List.mem_append] at h ⊢
    simp_all

theorem noUnlock_fetchTWRP (env : Env) (fs : Files) (product : String) :
    NoUnlockEvents (fetchTWRP env fs product).outTrace := by
  unfold fetchTWRP
  split
  · simp [NoUnlockEvents, exitHalt]
  · have h := noUnlock_downloadIfAbsent env fs .recoveryTWRP
      (urlFilename (genTWRPDeviceUrl product)) (urlFilename (genTWRPDeviceUrl product))
      env.twrpDlErr "Failed to download TWRP: "
    simp only [NoUnlockEvents, outTrace_prependTrace, List.mem_append] at h ⊢
    simp_all

theorem noUnlock_fetchOxygen (env : Env) (fs : Files) (twrpVar : String) :
    NoUnlockEvents (fetchOxygen env fs twrpVar).outTrace := by
  unfold fetchOxygen
  split
  · simp [NoUnlockEvents, exitHalt]
  · have h := noUnlock_downloadIfAbsent env fs .recoveryOxygen twrpVar env.oxygenFile
      env.oxygenDlErr "Failed to download Oxygen Recovery: "
    simp only [NoUnlockEvents, outTrace_prependTrace, List.mem_append] at h ⊢
    simp_all

theorem noUnlock_fetchFactory (env : Env) (fs : Files) :
    NoUnlockEvents (fetchFactory env fs).outTrace := by
  unfold fetchFactory
  split
  · simp [NoUnlockEvents, exitHalt]
  · have h := noUnlock_downloadIfAbsent env fs .factoryImage env.factoryFile
      env.factoryFile env.factoryDlErr "Failed to download factory image: "
    simp only [NoUnlockEvents, outTrace_prependTrace, List.mem_append] at h ⊢
    simp_all

theorem noUnlock_fetchPhase (env : Env) (fs : Files) (product : String) :
    NoUnlockEvents (fetchPhase env fs product).outTrace := by
  unfold fetchPhase
  have h1 := noUnlock_fetchNethunter env fs
  split
  all_goals rename_i heq1
  · rw [heq1] at h1; exact h1
  · rw [heq1] at h1
    rename_i tr1 fs1 zip
    have h2 := noUnlock_fetchTWRP env fs1 product
    split
    all_goals rename_i heq2
    · rw [heq2] at h2
      simp only [NoUnlockEvents, outTrace_halt, List.mem_append] at h1 h2 ⊢
      tauto
    · rw [heq2] at h2
      rename_i tr2 fs2 twrp
      have h3 := noUnlock_fetchOxygen env fs2 twrp
      split
      all_goals rename_i heq3
      · rw [heq3] at h3
        simp only [NoUnlockEvents, outTrace_next, outTrace_halt, List.mem_append] at h1 h2 h3 ⊢
        tauto
      · rw [heq3] at h3
        rename_i tr3 fs3 oxy
        have h4 := noUnlock_fetchFactory env fs3
        split
        all_goals rename_i heq4
        · rw [heq4] at h4
          simp only [NoUnlockEvents, outTrace_next, outTrace_halt, List.mem_append] at h1 h2 h3 h4 ⊢
          tauto
        · rw [heq4] at h4
          simp only [NoUnlockEvents, outTrace_next, outTrace_halt, List.mem_append] at h1 h2 h3 h4 ⊢
          tauto

theorem noUnlock_flashFactoryPhase (env : Env) (fs : Files) (oxy fact : String) :
    NoUnlockEvents (flashFactoryPhase env fs oxy fact).outTrace := by
  unfold flashFactoryPhase NoUnlockEvents
  split <;> [simp [exitHalt]; split] <;> [simp [exitHalt]; split] <;> simp [exitHalt]

theorem noUnlock_flashUpdatePhase (env : Env) (fs : Files) (zip twrp : String) :
    NoUnlockEvents (flashUpdatePhase env fs zip twrp).outTrace := by
  unfold flashUpdatePhase NoUnlockEvents
  split <;> [simp [exitHalt]; split] <;> [simp [exitHalt]; split] <;>
    [simp [exitHalt]; split] <;> simp [exitHalt]

theorem noUnlock_wipePhase (env : Env) (fs : Files) :
    NoUnlockEvents (wipePhase env fs).outTrace := by
  unfold wipePhase NoUnlockEvents
  split <;> [simp [exitHalt]; split] <;> [simp [exitHalt]; split] <;> simp [exitHalt]

theorem noUnlock_finalRebootPhase (env : Env) (fs : Files) :
    NoUnlockEvents (finalRebootPhase env fs).outTrace := by
  unfold finalRebootPhase NoUnlockEvents
  split <;> simp [exitHalt]

theorem noUnlock_runFromWipe (env : Env) (fs : Files) :
    NoUnlockEvents (runFromWipe env fs).outTrace := by
  unfold runFromWipe
  have h1 := noUnlock_wipePhase env fs
  split
  all_goals rename_i heq
  · rw [heq] at h1; exact h1
  · rw [heq] at h1
    rename_i tr f a
    have h2 := noUnlock_finalRebootPhase env f
    simp only [NoUnlockEvents, outTrace_next, outTrace_prependTrace, List.mem_append] at h1 h2 ⊢
    tauto

theorem noUnlock_runFromFlashUpdate (env : Env) (fs : Files) (zip twrp : String) :
    NoUnlockEvents (runFromFlashUpdate env fs zip twrp).outTrace := by
  unfold runFromFlashUpdate
  have h1 := noUnlock_flashUpdatePhase env fs zip twrp
  split
  all_goals rename_i heq
  · rw [heq] at h1; exact h1
  · rw [heq] at h1
    rename_i tr f a
    have h2 := noUnlock_runFromWipe env f
    simp only [NoUnlockEvents, outTrace_next, outTrace_prependTrace, List.mem_append] at h1 h2 ⊢
    tauto

theorem noUnlock_runFromFlashFactory (env : Env) (fs : Files) (zip twrp oxy fact : String) :
    NoUnlockEvents (runFromFlashFactory env fs zip twrp oxy fact).outTrace := by
  unfold runFromFlashFactory
  have h1 := noUnlock_flashFactoryPhase env fs oxy fact
  split
  all_goals rename_i heq
  · rw [heq] at h1; exact h1
  · rw [heq] at h1
    rename_i tr f a
    have h2 := noUnlock_runFromFlashUpdate env f zip twrp
    simp only [NoUnlockEvents, outTrace_next, outTrace_prependTrace, List.mem_append] at h1 h2 ⊢
    tauto

theorem noUnlock_runFromFetch (env : Env) (fs : Files) (product : String) :
    NoUnlockEvents (runFromFetch env fs product).outTrace := by
  unfold runFromFetch
  have h1 := noUnlock_fetchPhase env fs product
  split
  all_goals rename_i heq
  · rw [heq] at h1; exact h1
  · rw [heq] at h1
    rename_i tr f paths
    have h2 := noUnlock_runFromFlashFactory env f paths.1 paths.2.1 paths.2.2.1 paths.2.2.2
    simp only [NoUnlockEvents, outTrace_next, outTrace_prependTrace, List.mem_append] at h1 h2 ⊢
    tauto

theorem fetchRequest_update_mem_fetchNethunter (env : Env) (fs : Files) :
    Event.fetchRequest .updatePackage ∈ (fetchNethunter env fs).outTrace := by
  unfold fetchNethunter
  split <;> simp [exitHalt]

theorem fetchRequest_update_mem_fetchPhase (env : Env) (fs : Files) (product : String) :
    Event.fetchRequest .updatePackage ∈ (fetchPhase env fs product).outTrace := by
  unfold fetchPhase
  have h1 := fetchRequest_update_mem_fetchNethunter env fs
  split
  all_goals rename_i heq1
  · rw [heq1] at h1; exact h1
  · rw [heq1] at h1
    split
    · simp_all
    · split
      · simp_all
      · split <;> simp_all

theorem fetchRequest_update_mem_runFromFetch (env : Env) (fs : Files) (product : String) :
    Event.fetchRequest .updatePackage ∈ (runFromFetch env fs product).outTrace := by
  unfold runFromFetch
  have h1 := fetchRequest_update_mem_fetchPhase env fs product
  split
  all_goals rename_i heq
  · rw [heq] at h1; exact h1
  · rw [heq] at h1
    simp_all

/-! ### C9 — wipe-phase ordering -/

/-- C9: in `WipeCachePartitions` the three wipe commands are issued in the
fixed order cache, dalvik, data, each followed by a 1000 ms settle sleep
(conjunct 2 gives the full successful trace explicitly); the sequence of wipe
shell commands issued is always a prefix of that fixed order, so it is never
reordered (conjunct 1); every halt of the phase carries exit code `ErrorTWRP`
(conjunct 3); and when the dalvik wipe fails the already-issued cache wipe
remains in the command history — nothing is rolled back — while the data wipe
is never issued (conjunct 4). -/
theorem c9_wipe_fixed_order (env : Env) (fs : Files) :
    (∃ rest, shellsIn (wipePhase env fs).outTrace ++ rest =
      ["twrp wipe cache", "twrp wipe dalvik", "twrp wipe data"]) ∧
    (env.wipeCacheErr = none → env.wipeDalvikErr = none → env.wipeDataErr = none →
      wipePhase env fs = .next
        [.echo "Wiping your device without wiping /data/media...",
         .shell "twrp wipe cache", .sleepMs 1000,
         .shell "twrp wipe dalvik", .sleepMs 1000,
         .shell "twrp wipe data", .sleepMs 1000] fs ()) ∧
    (∀ r, (wipePhase env fs).outRes = some r → r = .exited ErrorTWRP) ∧
    (env.wipeCacheErr = none → env.wipeDalvikErr ≠ none →
      (wipePhase env fs).outRes = some (.exited ErrorTWRP) ∧
      shellsIn (wipePhase env fs).outTrace = ["twrp wipe cache", "twrp wipe dalvik"]) := by
  rcases h1 : env.wipeCacheErr with _ | e1 <;>
    rcases h2 : env.wipeDalvikErr with _ | e2 <;>
      rcases h3 : env.wipeDataErr with _ | e3 <;>
        simp [wipePhase, h1, h2, h3, exitHalt, StepOut.outRes, StepOut.outTrace]

/-- Closed witness for `c9_wipe_fixed_order` at a concrete environment whose
dalvik wipe fails. -/
theorem c9_witness :
    (wipePhase { envBase with wipeDalvikErr := some "io" } []).outRes =
      some (.exited ErrorTWRP) ∧
    shellsIn (wipePhase { envBase with wipeDalvikErr := some "io" } []).outTrace =
      ["twrp wipe cache", "twrp wipe dalvik"] :=
  (c9_wipe_fixed_order { envBase with wipeDalvikErr := some "io" } []).2.2.2 rfl
    (by decide)

/-! ### C7 — lock-state query failure is advisory -/

/-- C7: a failure of the bootloader lock-state query (`fastboot.Unlocked()`
returning an error) is advisory, not fatal.  The phase's termination result
and resulting files are exactly those of the same environment with a
successful query returning the same boolean (so the run continues identically
rather than exiting because of the query, with the unknown state treated as
the reported value), and the only difference in behaviour is a logged warning
inserted right after the query. -/
theorem c7_lock_query_advisory (env : Env) (fs : Files) (e : String)
    (h : env.unlockedErr = some e) :
    (unlockPhase env fs).outRes = (unlockPhase { env with unlockedErr := none } fs).outRes ∧
    (unlockPhase env fs).outFiles =
      (unlockPhase { env with unlockedErr := none } fs).outFiles ∧
    (unlockPhase env fs).outTrace =
      Event.unlockedQuery ::
        Event.echo ("Warning: unable to determine bootloader lock state: " ++ e) ::
        ((unlockPhase { env with unlockedErr := none } fs).outTrace).tail := by
  rcases hv : env.unlockedVal <;> rcases hu : env.unlockErr with _ | eu <;>
    simp [unlockPhase, h, hv, hu, exitHalt, exitTail]

/-- Closed witness for `c7_lock_query_advisory`: a concrete environment whose
lock-state query fails with message "io". -/
theorem c7_witness :
    (unlockPhase { envBase with unlockedErr := some "io" } []).outRes =
      (unlockPhase { { envBase with unlockedErr := some "io" } with unlockedErr := none }
        []).outRes :=
  (c7_lock_query_advisory { envBase with unlockedErr := some "io" } [] "io" rfl).1

/-! ### C2 — unlock is a terminal two-pass branch -/

/-- C2: in `EnsureBootloaderUnlocked`, when the device reports already
unlocked, `unlock()` and `fastboot.Reboot()` are never invoked anywhere in the
rest of the run and the run proceeds to the fetch phases (the update package's
fetch request is issued).  When the device reports locked and the unlock call
succeeds, the run terminates with `SuccessBootloaderUnlocked`; filtered to the
unlock/reboot commands, the trace is exactly `unlock` followed by
`fastbootReboot` (each called exactly once, in that order), and no fetch
request, no download, and no recovery boot is ever performed. -/
theorem c2_unlock_two_pass (env : Env) (fs : Files) (product : String) :
    (env.unlockedVal = true → env.unlockedErr = none →
      Event.unlock ∉ (runFromUnlock env fs product).outTrace ∧
      Event.fastbootReboot ∉ (runFromUnlock env fs product).outTrace ∧
      Event.fetchRequest .updatePackage ∈ (runFromUnlock env fs product).outTrace) ∧
    (env.unlockedVal = false → env.unlockedErr = none → env.unlockErr = none →
      (runFromUnlock env fs product).outRes = some (.exited SuccessBootloaderUnlocked) ∧
      ((runFromUnlock env fs product).outTrace).filter
          (fun ev => ev == Event.unlock || ev == Event.fastbootReboot) =
        [Event.unlock, Event.fastbootReboot] ∧
      fetchedArtifacts (runFromUnlock env fs product).outTrace = [] ∧
      downloadsIn (runFromUnlock env fs product).outTrace = [] ∧
      bootsIn (runFromUnlock env fs product).outTrace = []) := by
  constructor
  · intro hv he
    have hnu := noUnlock_runFromFetch env fs product
    have hreq := fetchRequest_update_mem_runFromFetch env fs product
    unfold runFromUnlock
    simp [unlockPhase, hv, he]
    simp only [NoUnlockEvents] at hnu
    tauto
  · intro hv he hu
    have hfilter : (exitTail env).filter
        (fun ev => ev == Event.unlock || ev == Event.fastbootReboot) = [] := by
      unfold exitTail
      split <;> decide
    simp [runFromUnlock, unlockPhase, hv, he, hu, exitHalt, hfilter]

/-- Closed witness for `c2_unlock_two_pass`: a concrete run on a locked device
whose unlock succeeds terminates with `SuccessBootloaderUnlocked` and performs
no fetches, downloads or recovery boots. -/
theorem c2_witness :
    (runFromUnlock { envBase with unlockedVal := false } [] "cheeseburger").outRes =
      some (.exited SuccessBootloaderUnlocked) ∧
    fetchedArtifacts
      (runFromUnlock { envBase with unlockedVal := false } [] "cheeseburger").outTrace = [] :=
  by
  have h := (c2_unlock_two_pass { envBase with unlockedVal := false } [] "cheeseburger").2
    rfl rfl rfl
  exact ⟨h.1, h.2.2.1⟩

/-! ### C1 — DetectDeviceMode routing -/

/-- A device in abstract mode `m` (the spec's single `DeviceProbe` result), as
seen by the two concrete probes of the detect phase: the fastboot probe sees a
device exactly when the device is in fastboot mode, and otherwise the adb
probe reports the mode.  `Unknown` never corresponds to a successful probe. -/
def probesAs (env : Env) (m : DeviceMode) : Prop :=
  match m with
  | .FastbootReady => env.fbDetectStatus = .FastbootReady
  | .NoDevice =>
      env.fbDetectStatus = .NoDevice ∧ env.adbVerifyStatus = .NoDevice ∧
        env.adbVerifyErr = none
  | .AdbUnauthorized =>
      env.fbDetectStatus = .NoDevice ∧ env.adbVerifyStatus = .AdbUnauthorized ∧
        env.adbVerifyErr = none
  | .AdbReady =>
      env.fbDetectStatus = .NoDevice ∧ env.adbVerifyStatus = .AdbReady ∧
        env.adbVerifyErr = none
  | .UsbPermissionDenied =>
      env.fbDetectStatus = .NoDevice ∧ env.adbVerifyStatus = .UsbPermissionDenied ∧
        env.adbVerifyErr = none
  | .Unknown => False

/-- C1: in phase `DetectDeviceMode`, every probed device mode routes to its
documented branch: `FastbootReady` advances (no termination) without issuing
any reboot; `NoDevice` and `AdbUnauthorized` terminate with `ErrorAdb`;
`UsbPermissionDenied` terminates with `ErrorUsbPerms`; `AdbReady` proceeds to
the reboot-to-bootloader step (the `adb reboot bootloader` command is issued);
and `FastbootReady` is the only mode that advances without a reboot (last
conjunct). -/
theorem c1_detect_routing (env : Env) (fs : Files) (m : DeviceMode)
    (h : probesAs env m) :
    (m = .FastbootReady →
      (detectPhase env fs).outRes = none ∧
      Event.adbReboot "bootloader" ∉ (detectPhase env fs).outTrace) ∧
    ((m = .NoDevice ∨ m = .AdbUnauthorized) →
      (detectPhase env fs).outRes = some (.exited ErrorAdb)) ∧
    (m = .UsbPermissionDenied →
      (detectPhase env fs).outRes = some (.exited ErrorUsbPerms)) ∧
    (m = .AdbReady → Event.adbReboot "bootloader" ∈ (detectPhase env fs).outTrace) ∧
    ((detectPhase env fs).outRes = none →
      Event.adbReboot "bootloader" ∉ (detectPhase env fs).outTrace →
      m = .FastbootReady) := by
  cases m with
  | Unknown => exact h.elim
  | NoDevice =>
      obtain ⟨h1, h2, h3⟩ := h
      simp [detectPhase, h1, h2, h3, exitHalt]
  | AdbUnauthorized =>
      obtain ⟨h1, h2, h3⟩ := h
      simp [detectPhase, h1, h2, h3, exitHalt]
  | AdbReady =>
      obtain ⟨h1, h2, h3⟩ := h
      rcases hre : env.adbRebootErr with _ | e
      · by_cases hpost : env.fbPostRebootErr.isSome ∨ env.fbPostRebootStatus = .NoDevice <;>
          simp [detectPhase, h1, h2, h3, hre, hpost, exitHalt]
      · simp [detectPhase, h1, h2, h3, hre, exitHalt]
  | FastbootReady =>
      have h1 : env.fbDetectStatus = .FastbootReady := h
      simp [detectPhase, h1]
  | UsbPermissionDenied =>
      obtain ⟨h1, h2, h3⟩ := h
      simp [detectPhase, h1, h2, h3, exitHalt]

/-- Closed witness for `c1_detect_routing`: an adb-ready device leads to the
reboot-to-bootloader command being issued. -/
theorem c1_witness :
    Event.adbReboot "bootloader" ∈
      (detectPhase { envBase with fbDetectStatus := .NoDevice } []).outTrace :=
  (c1_detect_routing { envBase with fbDetectStatus := .NoDevice } [] .AdbReady
    ⟨rfl, rfl, rfl⟩).2.2.2.1 rfl

/-! ### C8 — RebootToBootloader wait-and-reprobe -/

/-- C8 as stated is refuted at this concrete environment: after the reboot and
the 7 s wait, the re-probe reports `UsbPermissionDenied` — not
`FastbootReady` — yet the run does not terminate with `ErrorAdb`; it falls
through to the fastboot verification and terminates with `ErrorUsbPerms`. -/
theorem c8_counterexample :
    ({ envBase with
        fbDetectStatus := .NoDevice,
        fbPostRebootStatus := .UsbPermissionDenied,
        fbVerifyStatus := .UsbPermissionDenied } : Env).fbPostRebootStatus ≠
      .FastbootReady ∧
    (installerMain { envBase with
        fbDetectStatus := .NoDevice,
        fbPostRebootStatus := .UsbPermissionDenied,
        fbVerifyStatus := .UsbPermissionDenied }).outRes ≠
      some (.exited ErrorAdb) ∧
    (installerMain { envBase with
        fbDetectStatus := .NoDevice,
        fbPostRebootStatus := .UsbPermissionDenied,
        fbVerifyStatus := .UsbPermissionDenied }).outRes =
      some (.exited ErrorUsbPerms) := by
  refine ⟨by decide, by decide, rfl⟩

/-- C8 (amended): after `adb reboot bootloader` the orchestrator performs the
single fixed 7000 ms wait (conjunct 1: the phase's only sleep) and re-probes
exactly once; if the re-probe errors or reports no device, the run terminates
with `ErrorAdb` and the phase trace — given explicitly in conjunct 3, with its
two fastboot probes (the initial one and the single re-probe) and single sleep
— shows there is no further retry.  A re-probe that reports
USB-permission-denied instead advances (conjunct 2) and the fastboot
verification phase then terminates the run with `ErrorUsbPerms`
(conjunct 4). -/
theorem c8_reboot_single_wait (env : Env) (fs : Files)
    (h1 : env.fbDetectStatus = .NoDevice) (h2 : env.adbVerifyErr = none)
    (h3 : env.adbVerifyStatus = .AdbReady) (h4 : env.adbRebootErr = none) :
    sleepsIn (detectPhase env fs).outTrace = [7000] ∧
    (env.fbPostRebootErr = none → env.fbPostRebootStatus ≠ .NoDevice →
      detectPhase env fs = .next
        [.echo "Checking USB permissions...", .probeFastboot, .probeAdb,
         .echo "Rebooting your device into bootloader...", .adbReboot "bootloader",
         .sleepMs 7000, .probeFastboot] fs ()) ∧
    (env.fbPostRebootErr.isSome ∨ env.fbPostRebootStatus = .NoDevice →
      detectPhase env fs = .halt
        ([.echo "Checking USB permissions...", .probeFastboot, .probeAdb,
          .echo "Rebooting your device into bootloader...", .adbReboot "bootloader",
          .sleepMs 7000, .probeFastboot,
          .echo "Failed to reboot device into bootloader!"] ++ exitTail env) fs
        (.exited ErrorAdb)) ∧
    (env.fbPostRebootErr = none → env.fbPostRebootStatus = .UsbPermissionDenied →
      env.fbVerifyErr = none → env.fbVerifyStatus = .UsbPermissionDenied →
      (runFromDetect env fs).outRes = some (.exited ErrorUsbPerms)) := by
  refine ⟨?_, ?_, ?_, ?_⟩
  · by_cases hpost : env.fbPostRebootErr.isSome ∨ env.fbPostRebootStatus = .NoDevice <;>
      simp [detectPhase, h1, h2, h3, h4, hpost, exitHalt, exitTail] <;> split <;> simp
  · intro hp1 hp2
    simp [detectPhase, h1, h2, h3, h4, hp1, hp2]
  · intro hp
    simp [detectPhase, h1, h2, h3, h4, hp, exitHalt]
  · intro hp1 hp2 hv1 hv2
    simp [runFromDetect, runFromVerify, detectPhase, verifyFastbootPhase, h1, h2, h3, h4,
      hp1, hp2, hv1, hv2, exitHalt]

/-- Closed witness for `c8_reboot_single_wait`: with a device that never
reappears after the reboot, the phase performs exactly the single 7000 ms
wait and exits `ErrorAdb`. -/
theorem c8_witness :
    sleepsIn (detectPhase { envBase with
        fbDetectStatus := .NoDevice, fbPostRebootStatus := .NoDevice } []).outTrace =
      [7000] ∧
    detectPhase { envBase with
        fbDetectStatus := .NoDevice, fbPostRebootStatus := .NoDevice } [] = .halt
      ([.echo "Checking USB permissions...", .probeFastboot, .probeAdb,
        .echo "Rebooting your device into bootloader...", .adbReboot "bootloader",
        .sleepMs 7000, .probeFastboot,
        .echo "Failed to reboot device into bootloader!"] ++
        exitTail { envBase with
          fbDetectStatus := .NoDevice, fbPostRebootStatus := .NoDevice }) []
      (.exited ErrorAdb) := by
  have h := c8_reboot_single_wait { envBase with
    fbDetectStatus := .NoDevice, fbPostRebootStatus := .NoDevice } [] rfl rfl rfl rfl
  exact ⟨h.1, h.2.2.1 (Or.inr rfl)⟩

/-! ### Fetch-phase characterization lemmas -/

theorem fetchNethunter_spec (env : Env) (fs : Files) :
    (∀ a p, Event.download a p ∈ (fetchNethunter env fs).outTrace →
      a = .updatePackage ∧ p = env.nethunterFile ∧ env.nethunterFile ∉ fs) ∧
    (∀ tr fs2 y, fetchNethunter env fs = .next tr fs2 y →
      y = env.nethunterFile ∧ fs ⊆ fs2) := by
  unfold fetchNethunter downloadIfAbsent
  rcases h1 : env.nethunterReqErr with _ | e
  · by_cases h2 : env.nethunterFile ∈ fs
    · simp [h1, h2, exitHalt, StepOut.prependTrace]
    · rcases h3 : env.nethunterDlErr with _ | e2 <;>
        simp [h1, h2, h3, exitHalt, StepOut.prependTrace, List.subset_cons_self]
  · simp [h1, exitHalt]

theorem fetchTWRP_spec (env : Env) (fs : Files) (product : String) :
    (∀ a p, Event.download a p ∈ (fetchTWRP env fs product).outTrace →
      a = .recoveryTWRP ∧ p = urlFilename (genTWRPDeviceUrl product) ∧
        urlFilename (genTWRPDeviceUrl product) ∉ fs) ∧
    (∀ tr fs2 y, fetchTWRP env fs product = .next tr fs2 y →
      y = urlFilename (genTWRPDeviceUrl product) ∧ y ∈ fs2 ∧ fs ⊆ fs2) := by
  unfold fetchTWRP downloadIfAbsent
  rcases h1 : env.twrpReqErr with _ | e
  · by_cases h2 : urlFilename (genTWRPDeviceUrl product) ∈ fs
    · simp [h1, h2, exitHalt, StepOut.prependTrace]
    · rcases h3 : env.twrpDlErr with _ | e2 <;>
        simp [h1, h2, h3, exitHalt, StepOut.prependTrace, List.subset_cons_self]
  · simp [h1, exitHalt]

theorem fetchOxygen_spec (env : Env) (fs : Files) (twrpVar : String) :
    (∀ a p, Event.download a p ∈ (fetchOxygen env fs twrpVar).outTrace →
      a = .recoveryOxygen ∧ p = env.oxygenFile ∧ twrpVar ∉ fs) ∧
    (∀ tr fs2 y, fetchOxygen env fs twrpVar = .next tr fs2 y →
      y = env.oxygenFile ∧ fs ⊆ fs2) := by
  unfold fetchOxygen downloadIfAbsent
  rcases h1 : env.oxygenReqErr with _ | e
  · by_cases h2 : twrpVar ∈ fs
    · simp [h1, h2, exitHalt, StepOut.prependTrace]
    · rcases h3 : env.oxygenDlErr with _ | e2 <;>
        simp [h1, h2, h3, exitHalt, StepOut.prependTrace, List.subset_cons_self]
  · simp [h1, exitHalt]

theorem fetchFactory_spec (env : Env) (fs : Files) :
    (∀ a p, Event.download a p ∈ (fetchFactory env fs).outTrace →
      a = .factoryImage ∧ p = env.factoryFile ∧ env.factoryFile ∉ fs) ∧
    (∀ tr fs2 y, fetchFactory env fs = .next tr fs2 y →
      y = env.factoryFile ∧ fs ⊆ fs2) := by
  unfold fetchFactory downloadIfAbsent
  rcases h1 : env.factoryReqErr with _ | e
  · by_cases h2 : env.factoryFile ∈ fs
    · simp [h1, h2, exitHalt, StepOut.prependTrace]
    · rcases h3 : env.factoryDlErr with _ | e2 <;>
        simp [h1, h2, h3, exitHalt, StepOut.prependTrace, List.subset_cons_self]
  · simp [h1, exitHalt]

/-- Every download event of the whole fetch phase belongs to the update
package, the TWRP image, or the factory image, each performed only when the
corresponding file was absent at the start of the phase; the oxygen-recovery
artifact is never downloaded, because its existence check (source line 302)
stats the already-present TWRP file. -/
theorem fetchPhase_downloads (env : Env) (fs : Files) (product : String) :
    ∀ a p, Event.download a p ∈ (fetchPhase env fs product).outTrace →
      (a = .updatePackage ∧ p = env.nethunterFile ∧ env.nethunterFile ∉ fs) ∨
      (a = .recoveryTWRP ∧ p = urlFilename (genTWRPDeviceUrl product) ∧
        urlFilename (genTWRPDeviceUrl product) ∉ fs) ∨
      (a = .factoryImage ∧ p = env.factoryFile ∧ env.factoryFile ∉ fs) := by
  intro a p hmem
  unfold fetchPhase at hmem
  obtain ⟨hdl1, hnext1⟩ := fetchNethunter_spec env fs
  split at hmem
  all_goals rename_i heq1
  · exact Or.inl (hdl1 a p (by rw [heq1]; exact hmem))
  · rename_i tr1 fs1 zip
    obtain ⟨hy1, hsub1⟩ := hnext1 tr1 fs1 zip heq1
    have htr1 : (fetchNethunter env fs).outTrace = tr1 := by rw [heq1]; rfl
    obtain ⟨hdl2, hnext2⟩ := fetchTWRP_spec env fs1 product
    split at hmem
    all_goals rename_i heq2
    · rw [outTrace_halt, List.mem_append] at hmem
      rcases hmem with hmem | hmem
      · exact Or.inl (hdl1 a p (by rw [htr1]; exact hmem))
      · have h := hdl2 a p (by rw [heq2]; exact hmem)
        exact Or.inr (Or.inl ⟨h.1, h.2.1, fun hc => h.2.2 (hsub1 hc)⟩)
    · rename_i tr2 fs2 twrp
      obtain ⟨hy2, hmem2, hsub2⟩ := hnext2 tr2 fs2 twrp heq2
      have htr2 : (fetchTWRP env fs1 product).outTrace = tr2 := by rw [heq2]; rfl
      obtain ⟨hdl3, hnext3⟩ := fetchOxygen_spec env fs2 twrp
      split at hmem
      all_goals rename_i heq3
      · rw [outTrace_halt, List.mem_append, List.mem_append] at hmem
        rcases hmem with hmem | hmem | hmem
        · exact Or.inl (hdl1 a p (by rw [htr1]; exact hmem))
        · have h := hdl2 a p (by rw [htr2]; exact hmem)
          exact Or.inr (Or.inl ⟨h.1, h.2.1, fun hc => h.2.2 (hsub1 hc)⟩)
        · have h := hdl3 a p (by rw [heq3]; exact hmem)
          exact absurd hmem2 h.2.2
      · rename_i tr3 fs3 oxy
        obtain ⟨hy3, hsub3⟩ := hnext3 tr3 fs3 oxy heq3
        have htr3 : (fetchOxygen env fs2 twrp).outTrace = tr3 := by rw [heq3]; rfl
        obtain ⟨hdl4, hnext4⟩ := fetchFactory_spec env fs3
        split at hmem
        all_goals rename_i heq4
        · rw [outTrace_halt, List.mem_append, List.mem_append, List.mem_append] at hmem
          rcases hmem with hmem | hmem | hmem | hmem
          · exact Or.inl (hdl1 a p (by rw [htr1]; exact hmem))
          · have h := hdl2 a p (by rw [htr2]; exact hmem)
            exact Or.inr (Or.inl ⟨h.1, h.2.1, fun hc => h.2.2 (hsub1 hc)⟩)
          · have h := hdl3 a p (by rw [htr3]; exact hmem)
            exact absurd hmem2 h.2.2
          · have h := hdl4 a p (by rw [heq4]; exact hmem)
            exact Or.inr (Or.inr ⟨h.1, h.2.1,
              fun hc => h.2.2 (hsub3 (hsub2 (hsub1 hc)))⟩)
        · rw [outTrace_next, List.mem_append, List.mem_append, List.mem_append] at hmem
          rcases hmem with hmem | hmem | hmem | hmem
          · exact Or.inl (hdl1 a p (by rw [htr1]; exact hmem))
          · have h := hdl2 a p (by rw [htr2]; exact hmem)
            exact Or.inr (Or.inl ⟨h.1, h.2.1, fun hc => h.2.2 (hsub1 hc)⟩)
          · have h := hdl3 a p (by rw [htr3]; exact hmem)
            exact absurd hmem2 h.2.2
          · have h := hdl4 a p (by rw [heq4]; exact hmem)
            exact Or.inr (Or.inr ⟨h.1, h.2.1,
              fun hc => h.2.2 (hsub3 (hsub2 (hsub1 hc)))⟩)

theorem fetched_fetchNethunter (env : Env) (fs : Files) :
    fetchedArtifacts (fetchNethunter env fs).outTrace = [.updatePackage] := by
  unfold fetchNethunter downloadIfAbsent
  rcases h1 : env.nethunterReqErr with _ | e
  · by_cases h2 : env.nethunterFile ∈ fs
    · simp [h1, h2, StepOut.prependTrace]
    · rcases h3 : env.nethunterDlErr with _ | e2 <;>
        simp [h1, h2, h3, exitHalt, StepOut.prependTrace]
  · simp [h1, exitHalt]

theorem fetched_fetchTWRP (env : Env) (fs : Files) (product : String) :
    fetchedArtifacts (fetchTWRP env fs product).outTrace = [.recoveryTWRP] := by
  unfold fetchTWRP downloadIfAbsent
  rcases h1 : env.twrpReqErr with _ | e
  · by_cases h2 : urlFilename (genTWRPDeviceUrl product) ∈ fs
    · simp [h1, h2, StepOut.prependTrace]
    · rcases h3 : env.twrpDlErr with _ | e2 <;>
        simp [h1, h2, h3, exitHalt, StepOut.prependTrace]
  · simp [h1, exitHalt]

theorem fetched_fetchOxygen (env : Env) (fs : Files) (twrpVar : String) :
    fetchedArtifacts (fetchOxygen env fs twrpVar).outTrace = [.recoveryOxygen] := by
  unfold fetchOxygen downloadIfAbsent
  rcases h1 : env.oxygenReqErr with _ | e
  · by_cases h2 : twrpVar ∈ fs
    · simp [h1, h2, StepOut.prependTrace]
    · rcases h3 : env.oxygenDlErr with _ | e2 <;>
        simp [h1, h2, h3, exitHalt, StepOut.prependTrace]
  · simp [h1, exitHalt]

theorem fetched_fetchFactory (env : Env) (fs : Files) :
    fetchedArtifacts (fetchFactory env fs).outTrace = [.factoryImage] := by
  unfold fetchFactory downloadIfAbsent
  rcases h1 : env.factoryReqErr with _ | e
  · by_cases h2 : env.factoryFile ∈ fs
    · simp [h1, h2, StepOut.prependTrace]
    · rcases h3 : env.factoryDlErr with _ | e2 <;>
        simp [h1, h2, h3, exitHalt, StepOut.prependTrace]
  · simp [h1, exitHalt]

theorem halt_fetchNethunter (env : Env) (fs : Files) (tr : List Event) (f : Files)
    (r : RunResult) (h : fetchNethunter env fs = .halt tr f r) : r = .exited ErrorRemote := by
  unfold fetchNethunter downloadIfAbsent at h
  rcases h1 : env.nethunterReqErr with _ | e <;> rw [h1] at h
  · by_cases h2 : env.nethunterFile ∈ fs <;> simp only [h2] at h
    · simp [StepOut.prependTrace, if_pos h2] at h
    · rcases h3 : env.nethunterDlErr with _ | e2 <;>
        simp [StepOut.prependTrace, if_neg h2, h3, exitHalt] at h <;> tauto
  · simp [exitHalt] at h
    tauto

theorem halt_fetchTWRP (env : Env) (fs : Files) (product : String) (tr : List Event)
    (f : Files) (r : RunResult) (h : fetchTWRP env fs product = .halt tr f r) :
    r = .exited ErrorRemote := by
  unfold fetchTWRP downloadIfAbsent at h
  rcases h1 : env.twrpReqErr with _ | e <;> rw [h1] at h
  · by_cases h2 : urlFilename (genTWRPDeviceUrl product) ∈ fs
    · simp [StepOut.prependTrace, if_pos h2] at h
    · rcases h3 : env.twrpDlErr with _ | e2 <;>
        simp [StepOut.prependTrace, if_neg h2, h3, exitHalt] at h <;> tauto
  · simp [exitHalt] at h
    tauto

theorem halt_fetchOxygen (env : Env) (fs : Files) (twrpVar : String) (tr : List Event)
    (f : Files) (r : RunResult) (h : fetchOxygen env fs twrpVar = .halt tr f r) :
    r = .exited ErrorRemote := by
  unfold fetchOxygen downloadIfAbsent at h
  rcases h1 : env.oxygenReqErr with _ | e <;> rw [h1] at h
  · by_cases h2 : twrpVar ∈ fs
    · simp [StepOut.prependTrace, if_pos h2] at h
    · rcases h3 : env.oxygenDlErr with _ | e2 <;>
        simp [StepOut.prependTrace, if_neg h2, h3, exitHalt] at h <;> tauto
  · simp [exitHalt] at h
    tauto

theorem halt_fetchFactory (env : Env) (fs : Files) (tr : List Event) (f : Files)
    (r : RunResult) (h : fetchFactory env fs = .halt tr f r) : r = .exited ErrorRemote := by
  unfold fetchFactory downloadIfAbsent at h
  rcases h1 : env.factoryReqErr with _ | e <;> rw [h1] at h
  · by_cases h2 : env.factoryFile ∈ fs
    · simp [StepOut.prependTrace, if_pos h2] at h
    · rcases h3 : env.factoryDlErr with _ | e2 <;>
        simp [StepOut.prependTrace, if_neg h2, h3, exitHalt] at h <;> tauto
  · simp [exitHalt] at h
    tauto

/-! ### C4 — artifact-fetch idempotence -/

/-- C4: artifact fetching is idempotent.  Conjunct 1: whenever the stated file
already exists in the working directory, the download block skips the network
transfer entirely (its trace is just the existence check), leaves the
directory unchanged, and returns the request's canonical file name.
Conjunct 2: after any successful fetch keyed on an artifact's own canonical
name, fetching the same artifact again performs zero transfers and yields the
same path.  Conjuncts 3-6: in the full fetch phase, for each of the four
artifacts, when that artifact's canonical expected file name is already
present no download event for that artifact ever occurs.  Conjunct 7: when
all four expected files are present (and the four requests succeed), the whole
fetch phase performs zero downloads — its trace, given explicitly, contains
only the requests and existence checks — leaves the directory unchanged, and
returns exactly the four canonical file names. -/
theorem c4_fetch_idempotent (env : Env) (fs : Files) (product : String) :
    (∀ (a : Artifact) (statT name : String) (dErr : Option String) (msg : String),
      statT ∈ fs →
      downloadIfAbsent env fs a statT name dErr msg = .next [.statFile statT] fs name) ∧
    (∀ (a : Artifact) (name : String) (dErr dErr2 : Option String) (msg msg2 : String)
        (tr : List Event) (fs2 : Files) (path : String),
      downloadIfAbsent env fs a name name dErr msg = .next tr fs2 path →
      path = name ∧
      downloadIfAbsent env fs2 a name name dErr2 msg2 = .next [.statFile name] fs2 name) ∧
    (env.nethunterFile ∈ fs →
      ∀ p, Event.download .updatePackage p ∉ (fetchPhase env fs product).outTrace) ∧
    (urlFilename (genTWRPDeviceUrl product) ∈ fs →
      ∀ p, Event.download .recoveryTWRP p ∉ (fetchPhase env fs product).outTrace) ∧
    (env.oxygenFile ∈ fs →
      ∀ p, Event.download .recoveryOxygen p ∉ (fetchPhase env fs product).outTrace) ∧
    (env.factoryFile ∈ fs →
      ∀ p, Event.download .factoryImage p ∉ (fetchPhase env fs product).outTrace) ∧
    (env.nethunterReqErr = none → env.twrpReqErr = none → env.oxygenReqErr = none →
      env.factoryReqErr = none →
      env.nethunterFile ∈ fs → urlFilename (genTWRPDeviceUrl product) ∈ fs →
      env.oxygenFile ∈ fs → env.factoryFile ∈ fs →
      fetchPhase env fs product = .next
        [.echo "Downloading the latest release for your device (%q)...",
         .fetchRequest .updatePackage, .statFile env.nethunterFile,
         .echo "Downloading TWRP for your device...", .fetchRequest .recoveryTWRP,
         .twrpUrl (genTWRPDeviceUrl product),
         .statFile (urlFilename (genTWRPDeviceUrl product)),
         .echo "Downloading OnePlus5 OxygenOS recovery for your device...",
         .fetchRequest .recoveryOxygen, .statFile (urlFilename (genTWRPDeviceUrl product)),
         .echo "Downloading OnePlus 5 factory for your device...",
         .fetchRequest .factoryImage, .statFile env.factoryFile] fs
        (env.nethunterFile, urlFilename (genTWRPDeviceUrl product), env.oxygenFile,
         env.factoryFile)) := by
  refine ⟨?_, ?_, ?_, ?_, ?_, ?_, ?_⟩
  · intro a statT name dErr msg h
    simp [downloadIfAbsent, h]
  · intro a name dErr dErr2 msg msg2 tr fs2 path h
    unfold downloadIfAbsent at h ⊢
    by_cases h2 : name ∈ fs
    · rw [if_pos h2] at h
      rw [StepOut.next.injEq] at h
      obtain ⟨htr, hfs, hpath⟩ := h
      subst hfs
      subst hpath
      exact ⟨rfl, by simp [h2]⟩
    · rw [if_neg h2] at h
      rcases h3 : dErr with _ | e2 <;> rw [h3] at h
      · rw [StepOut.next.injEq] at h
        obtain ⟨htr, hfs, hpath⟩ := h
        subst hfs
        subst hpath
        exact ⟨rfl, by simp⟩
      · simp [exitHalt] at h
  · intro h p hmem
    rcases fetchPhase_downloads env fs product _ _ hmem with h1 | h1 | h1 <;> simp_all
  · intro h p hmem
    rcases fetchPhase_downloads env fs product _ _ hmem with h1 | h1 | h1 <;> simp_all
  · intro h p hmem
    rcases fetchPhase_downloads env fs product _ _ hmem with h1 | h1 | h1 <;> simp_all
  · intro h p hmem
    rcases fetchPhase_downloads env fs product _ _ hmem with h1 | h1 | h1 <;> simp_all
  · intro hr1 hr2 hr3 hr4 hm1 hm2 hm3 hm4
    simp [fetchPhase, fetchNethunter, fetchTWRP, fetchOxygen, fetchFactory,
      downloadIfAbsent, hr1, hr2, hr3, hr4, hm1, hm2, hm3, hm4, StepOut.prependTrace]

/-- Closed witness for `c4_fetch_idempotent`: a present file is never
re-transferred and the existing path is returned. -/
theorem c4_witness :
    downloadIfAbsent envBase ["nethunter.zip"] .updatePackage "nethunter.zip"
      "nethunter.zip" none "msg" =
      .next [.statFile "nethunter.zip"] ["nethunter.zip"] "nethunter.zip" :=
  (c4_fetch_idempotent envBase ["nethunter.zip"] "cheeseburger").1 .updatePackage
    "nethunter.zip" "nethunter.zip" none "msg" (by decide)

/-! ### C5 — artifact fetch order and failure policy -/

/-- C5 as stated is refuted on a fully successful concrete run: the artifacts
are fetched in the order update package, TWRP (the recovery booted to install
the update package), Oxygen recovery (the recovery booted to flash the factory
image), factory image — not with the two recovery images in the claimed
order. -/
theorem c5_counterexample :
    fetchedArtifacts (installerMain envBase).outTrace =
      [.updatePackage, .recoveryTWRP, .recoveryOxygen, .factoryImage] ∧
    ([.updatePackage, .recoveryTWRP, .recoveryOxygen, .factoryImage] : List Artifact) ≠
      [.updatePackage, .recoveryOxygen, .recoveryTWRP, .factoryImage] := by
  exact ⟨by decide, by decide⟩

/-- C5 (amended): artifacts are fetched sequentially in the fixed order update
package, recovery-B image (TWRP, booted to install the update package),
recovery-A image (Oxygen recovery, booted to flash the factory image), factory
image: the sequence of fetch requests is always a prefix of that order
(conjunct 1); every halt of the fetch phase carries exit code `ErrorRemote`
(conjunct 2); and when the second artifact's transfer fails, the run
terminates with `ErrorRemote`, the first artifact's downloaded file remains on
disk, and the third and fourth artifacts are never requested (conjunct 3). -/
theorem c5_fetch_sequence (env : Env) (fs : Files) (product : String) :
    (∃ rest, fetchedArtifacts (fetchPhase env fs product).outTrace ++ rest =
      [.updatePackage, .recoveryTWRP, .recoveryOxygen, .factoryImage]) ∧
    (∀ tr f r, fetchPhase env fs product = .halt tr f r → r = .exited ErrorRemote) ∧
    (∀ e, env.nethunterReqErr = none → env.nethunterFile ∉ fs →
      env.nethunterDlErr = none → env.twrpReqErr = none →
      urlFilename (genTWRPDeviceUrl product) ∉ fs →
      urlFilename (genTWRPDeviceUrl product) ≠ env.nethunterFile →
      env.twrpDlErr = some e →
      (fetchPhase env fs product).outRes = some (.exited ErrorRemote) ∧
      env.nethunterFile ∈ (fetchPhase env fs product).outFiles ∧
      fetchedArtifacts (fetchPhase env fs product).outTrace =
        [.updatePackage, .recoveryTWRP]) := by
  refine ⟨?_, ?_, ?_⟩
  · unfold fetchPhase
    have hf1 := fetched_fetchNethunter env fs
    split
    all_goals rename_i heq1
    · rw [heq1] at hf1
      exact ⟨[.recoveryTWRP, .recoveryOxygen, .factoryImage], by simp_all⟩
    · rw [heq1] at hf1
      rename_i tr1 fs1 zip
      have hf2 := fetched_fetchTWRP env fs1 product
      split
      all_goals rename_i heq2
      · rw [heq2] at hf2
        exact ⟨[.recoveryOxygen, .factoryImage], by simp_all⟩
      · rw [heq2] at hf2
        rename_i tr2 fs2 twrp
        have hf3 := fetched_fetchOxygen env fs2 twrp
        split
        all_goals rename_i heq3
        · rw [heq3] at hf3
          exact ⟨[.factoryImage], by simp_all⟩
        · rw [heq3] at hf3
          rename_i tr3 fs3 oxy
          have hf4 := fetched_fetchFactory env fs3
          split
          all_goals rename_i heq4
          · rw [heq4] at hf4
            exact ⟨[], by simp_all⟩
          · rw [heq4] at hf4
            exact ⟨[], by simp_all⟩
  · intro tr f r h
    unfold fetchPhase at h
    split at h
    all_goals rename_i heq1
    · rw [StepOut.halt.injEq] at h
      exact h.2.2 ▸ halt_fetchNethunter env fs _ _ _ heq1
    · split at h
      all_goals rename_i heq2
      · rw [StepOut.halt.injEq] at h
        exact h.2.2 ▸ halt_fetchTWRP env _ product _ _ _ heq2
      · split at h
        all_goals rename_i heq3
        · rw [StepOut.halt.injEq] at h
          exact h.2.2 ▸ halt_fetchOxygen env _ _ _ _ _ heq3
        · split at h
          all_goals rename_i heq4
          · rw [StepOut.halt.injEq] at h
            exact h.2.2 ▸ halt_fetchFactory env _ _ _ _ heq4
          · exact absurd h (by simp)
  · intro e h1 h2 h3 h4 h5 h6 h7
    simp [fetchPhase, fetchNethunter, fetchTWRP, downloadIfAbsent, h1, h2, h3, h4, h5,
      h6, h7, exitHalt, StepOut.prependTrace]

/-- Closed witness for `c5_fetch_sequence`: the TWRP transfer failing on a
concrete environment ends the fetch phase with `ErrorRemote`, with the update
package still on disk and only the first two artifacts requested. -/
theorem c5_witness :
    (fetchPhase { envBase with twrpDlErr := some "net" } [] "cheeseburger").outRes =
      some (.exited ErrorRemote) ∧
    ({ envBase with twrpDlErr := some "net" } : Env).nethunterFile ∈
      (fetchPhase { envBase with twrpDlErr := some "net" } [] "cheeseburger").outFiles ∧
    fetchedArtifacts
      (fetchPhase { envBase with twrpDlErr := some "net" } [] "cheeseburger").outTrace =
      [.updatePackage, .recoveryTWRP] :=
  (c5_fetch_sequence { envBase with twrpDlErr := some "net" } [] "cheeseburger").2.2 "net"
    rfl (by decide) rfl rfl (by decide) (by decide) rfl

/-! ### C3 — vendor-alias normalization (code bug) -/

/-- C3: the source's alias check is a no-op — the `product := "cheeseburger"`
inside the if-block declares a new shadowed variable, so the outer codename is
never updated (conjunct 1), contrary to the spec's normalization (conjunct 2,
`specNormalizeProduct`).  On a concrete run whose fastboot product string is
"QC_Reference_Phone", the TWRP download URL is built from the raw vendor alias
(conjunct 3), which differs from the URL the canonical codename would give
(conjunct 4). -/
theorem c3_normalization_shadowed :
    normalizeProduct "QC_Reference_Phone" = "QC_Reference_Phone" ∧
    specNormalizeProduct "QC_Reference_Phone" = "cheeseburger" ∧
    urlsIn (installerMain { envBase with productStr := "QC_Reference_Phone" }).outTrace =
      [genTWRPDeviceUrl "QC_Reference_Phone"] ∧
    genTWRPDeviceUrl "QC_Reference_Phone" ≠ genTWRPDeviceUrl "cheeseburger" := by
  exact ⟨rfl, rfl, by decide, by decide⟩

/-! ### Exit discipline: every halt after the start phase is an `exit` with a
documented code, and its trace ends with the `exit` helper's tail -/

/-- Every halt of this step is a process exit with a documented code whose
trace ends with the `exit` helper's tail (the Windows prompt-and-read, or
nothing elsewhere). -/
def HaltOK {α : Type} (env : Env) (s : StepOut α) : Prop :=
  ∀ tr f r, s = .halt tr f r →
    ∃ c, r = .exited c ∧ c ∈ DocCodes ∧ ∃ t, tr = t ++ exitTail env

theorem prependTrace_eq_halt {α : Type} (s : StepOut α) (pre tr : List Event) (f : Files)
    (r : RunResult) :
    s.prependTrace pre = .halt tr f r ↔ ∃ tr2, s = .halt tr2 f r ∧ tr = pre ++ tr2 := by
  cases s with
  | next tr0 f0 a => simp [StepOut.prependTrace]
  | halt tr0 f0 r0 =>
      simp only [StepOut.prependTrace, StepOut.halt.injEq]
      constructor
      · rintro ⟨h1, h2, h3⟩
        exact ⟨tr0, ⟨rfl, h2, h3⟩, h1.symm⟩
      · rintro ⟨tr2, ⟨h1, h2, h3⟩, h4⟩
        exact ⟨by rw [h4, h1], h2, h3⟩

theorem haltOK_exitHalt {α : Type} (env : Env) (tr : List Event) (fs : Files) (c : Nat)
    (h : c ∈ DocCodes) : HaltOK env (exitHalt (α := α) env tr fs c) := by
  intro tr2 f r he
  unfold exitHalt at he
  rw [StepOut.halt.injEq] at he
  exact ⟨c, he.2.2.symm, h, tr, he.1.symm⟩

theorem haltOK_next {α : Type} (env : Env) (tr : List Event) (fs : Files) (a : α) :
    HaltOK env (StepOut.next tr fs a) := by
  intro tr2 f r he
  exact absurd he (by simp)

theorem haltOK_prependTrace {α : Type} (env : Env) (s : StepOut α) (pre : List Event)
    (h : HaltOK env s) : HaltOK env (s.prependTrace pre) := by
  intro tr f r he
  rw [prependTrace_eq_halt] at he
  obtain ⟨tr2, hs, htr⟩ := he
  obtain ⟨c, hc, hmem, t, ht⟩ := h tr2 f r hs
  exact ⟨c, hc, hmem, pre ++ t, by rw [htr, ht, List.append_assoc]⟩

theorem haltOK_of_components {α β : Type} (env : Env) (s : StepOut α)
    (hOK : HaltOK env s) (trX : List Event) (fX : Files) (rX : RunResult)
    (heq : s = .halt trX fX rX) (tr : List Event) (f : Files) (r : RunResult)
    (h : StepOut.halt (α := β) trX fX rX = .halt tr f r) :
    ∃ c, r = .exited c ∧ c ∈ DocCodes ∧ ∃ t, tr = t ++ exitTail env := by
  rw [StepOut.halt.injEq] at h
  obtain ⟨htr, hf, hr⟩ := h
  obtain ⟨c, hc, hmem, t, ht⟩ := hOK trX fX rX heq
  exact ⟨c, hr ▸ hc, hmem, t, by rw [← htr, ht]⟩

theorem haltOK_detectPhase (env : Env) (fs : Files) : HaltOK env (detectPhase env fs) := by
  unfold detectPhase
  by_cases h1 : env.fbDetectStatus = .NoDevice <;> simp only [h1, if_pos, if_neg, if_true,
    if_false, reduceIte]
  · rcases h2 : env.adbVerifyErr with _ | e
    · by_cases h3 : env.adbVerifyStatus = .NoDevice ∨ env.adbVerifyStatus = .AdbUnauthorized <;>
        simp only [h3, reduceIte]
      · exact haltOK_exitHalt env _ _ _ (by decide)
      · by_cases h4 : env.adbVerifyStatus = .UsbPermissionDenied <;> simp only [h4, reduceIte]
        · exact haltOK_exitHalt env _ _ _ (by decide)
        · rcases h5 : env.adbRebootErr with _ | e2
          · by_cases h6 : env.fbPostRebootErr.isSome ∨ env.fbPostRebootStatus = .NoDevice <;>
              simp only [h6, reduceIte]
            · exact haltOK_exitHalt env _ _ _ (by decide)
            · exact haltOK_next env _ _ _
          · exact haltOK_exitHalt env _ _ _ (by decide)
    · exact haltOK_exitHalt env _ _ _ (by decide)
  · exact haltOK_next env _ _ _

theorem haltOK_verifyFastbootPhase (env : Env) (fs : Files) :
    HaltOK env (verifyFastbootPhase env fs) := by
  unfold verifyFastbootPhase
  rcases h1 : env.fbVerifyErr with _ | e
  · by_cases h2 : env.fbVerifyStatus = .NoDevice <;> simp only [h2, reduceIte]
    · exact haltOK_exitHalt env _ _ _ (by decide)
    · by_cases h3 : env.fbVerifyStatus = .UsbPermissionDenied <;> simp only [h3, reduceIte]
      · exact haltOK_exitHalt env _ _ _ (by decide)
      · exact haltOK_next env _ _ _
  · exact haltOK_exitHalt env _ _ _ (by decide)

theorem haltOK_identifyPhase (env : Env) (fs : Files) :
    HaltOK env (identifyPhase env fs) := by
  unfold identifyPhase
  rcases h1 : env.productErr with _ | e
  · exact haltOK_next env _ _ _
  · exact haltOK_exitHalt env _ _ _ (by decide)

theorem haltOK_unlockPhase (env : Env) (fs : Files) : HaltOK env (unlockPhase env fs) := by
  unfold unlockPhase
  by_cases h1 : env.unlockedVal = false <;> simp only [h1, reduceIte]
  · rcases h2 : env.unlockErr with _ | e
    · exact haltOK_exitHalt env _ _ _ (by decide)
    · exact haltOK_exitHalt env _ _ _ (by decide)
  · exact haltOK_next env _ _ _

theorem haltOK_downloadIfAbsent (env : Env) (fs : Files) (a : Artifact)
    (statTarget filename : String) (dlErr : Option String) (failMsg : String) :
    HaltOK env (downloadIfAbsent env fs a statTarget filename dlErr failMsg) := by
  unfold downloadIfAbsent
  by_cases h1 : statTarget ∈ fs <;> simp only [h1, reduceIte]
  · exact haltOK_next env _ _ _
  · rcases h2 : dlErr with _ | e
    · exact haltOK_next env _ _ _
    · exact haltOK_exitHalt env _ _ _ (by decide)

theorem haltOK_fetchNethunter (env : Env) (fs : Files) :
    HaltOK env (fetchNethunter env fs) := by
  unfold fetchNethunter
  rcases h1 : env.nethunterReqErr with _ | e
  · exact haltOK_prependTrace env _ _ (haltOK_downloadIfAbsent env _ _ _ _ _ _)
  · exact haltOK_exitHalt env _ _ _ (by decide)

theorem haltOK_fetchTWRP (env : Env) (fs : Files) (product : String) :
    HaltOK env (fetchTWRP env fs product) := by
  unfold fetchTWRP
  rcases h1 : env.twrpReqErr with _ | e
  · exact haltOK_prependTrace env _ _ (haltOK_downloadIfAbsent env _ _ _ _ _ _)
  · exact haltOK_exitHalt env _ _ _ (by decide)

theorem haltOK_fetchOxygen (env : Env) (fs : Files) (twrpVar : String) :
    HaltOK env (fetchOxygen env fs twrpVar) := by
  unfold fetchOxygen
  rcases h1 : env.oxygenReqErr with _ | e
  · exact haltOK_prependTrace env _ _ (haltOK_downloadIfAbsent env _ _ _ _ _ _)
  · exact haltOK_exitHalt env _ _ _ (by decide)

theorem haltOK_fetchFactory (env : Env) (fs : Files) :
    HaltOK env (fetchFactory env fs) := by
  unfold fetchFactory
  rcases h1 : env.factoryReqErr with _ | e
  · exact haltOK_prependTrace env _ _ (haltOK_downloadIfAbsent env _ _ _ _ _ _)
  · exact haltOK_exitHalt env _ _ _ (by decide)

theorem haltOK_fetchPhase (env : Env) (fs : Files) (product : String) :
    HaltOK env (fetchPhase env fs product) := by
  intro tr f r h
  unfold fetchPhase at h
  split at h
  all_goals rename_i heq1
  · exact haltOK_of_components env _ (haltOK_fetchNethunter env fs) _ _ _ heq1 tr f r h
  · rename_i tr1 fs1 zip
    split at h
    all_goals rename_i heq2
    · rename_i trX fX rX
      rw [StepOut.halt.injEq] at h
      obtain ⟨htr, hf, hr⟩ := h
      obtain ⟨c, hc, hmem, t, ht⟩ := haltOK_fetchTWRP env fs1 product trX fX rX heq2
      exact ⟨c, hr ▸ hc, hmem, tr1 ++ t, by rw [← htr, ht]; simp [List.append_assoc]⟩
    · rename_i tr2 fs2 twrp
      split at h
      all_goals rename_i heq3
      · rename_i trX fX rX
        rw [StepOut.halt.injEq] at h
        obtain ⟨htr, hf, hr⟩ := h
        obtain ⟨c, hc, hmem, t, ht⟩ := haltOK_fetchOxygen env fs2 twrp trX fX rX heq3
        exact ⟨c, hr ▸ hc, hmem, tr1 ++ (tr2 ++ t), by
          rw [← htr, ht]; simp [List.append_assoc]⟩
      · rename_i tr3 fs3 oxy
        split at h
        all_goals rename_i heq4
        · rename_i trX fX rX
          rw [StepOut.halt.injEq] at h
          obtain ⟨htr, hf, hr⟩ := h
          obtain ⟨c, hc, hmem, t, ht⟩ := haltOK_fetchFactory env fs3 trX fX rX heq4
          exact ⟨c, hr ▸ hc, hmem, tr1 ++ (tr2 ++ (tr3 ++ t)), by
            rw [← htr, ht]; simp [List.append_assoc]⟩
        · exact absurd h (by simp)

theorem haltOK_flashFactoryPhase (env : Env) (fs : Files) (oxy fact : String) :
    HaltOK env (flashFactoryPhase env fs oxy fact) := by
  unfold flashFactoryPhase
  rcases h1 : env.bootOxygenErr with _ | e1
  · rcases h2 : env.sideloadPromptErr with _ | e2
    · rcases h3 : env.sideloadErr with _ | e3
      · exact haltOK_next env _ _ _
      · exact haltOK_exitHalt env _ _ _ (by decide)
    · exact haltOK_exitHalt env _ _ _ (by decide)
  · exact haltOK_exitHalt env _ _ _ (by decide)

theorem haltOK_flashUpdatePhase (env : Env) (fs : Files) (zip twrp : String) :
    HaltOK env (flashUpdatePhase env fs zip twrp) := by
  unfold flashUpdatePhase
  rcases h1 : env.fastbootPromptErr with _ | e1
  · rcases h2 : env.bootTwrpErr with _ | e2
    · rcases h3 : env.pushErr with _ | e3
      · rcases h4 : env.installErr with _ | e4
        · exact haltOK_next env _ _ _
        · exact haltOK_exitHalt env _ _ _ (by decide)
      · exact haltOK_exitHalt env _ _ _ (by decide)
    · exact haltOK_exitHalt env _ _ _ (by decide)
  · exact haltOK_exitHalt env _ _ _ (by decide)

theorem haltOK_wipePhase (env : Env) (fs : Files) : HaltOK env (wipePhase env fs) := by
  unfold wipePhase
  rcases h1 : env.wipeCacheErr with _ | e1
  · rcases h2 : env.wipeDalvikErr with _ | e2
    · rcases h3 : env.wipeDataErr with _ | e3
      · exact haltOK_next env _ _ _
      · exact haltOK_exitHalt env _ _ _ (by decide)
    · exact haltOK_exitHalt env _ _ _ (by decide)
  · exact haltOK_exitHalt env _ _ _ (by decide)

theorem haltOK_finalRebootPhase (env : Env) (fs : Files) :
    HaltOK env (finalRebootPhase env fs) := by
  unfold finalRebootPhase
  rcases h1 : env.finalRebootErr with _ | e1
  · exact haltOK_exitHalt env _ _ _ (by decide)
  · exact haltOK_exitHalt env _ _ _ (by decide)

theorem haltOK_runFromWipe (env : Env) (fs : Files) : HaltOK env (runFromWipe env fs) := by
  intro tr f r h
  unfold runFromWipe at h
  split at h
  all_goals rename_i heq
  · exact haltOK_of_components env _ (haltOK_wipePhase env fs) _ _ _ heq tr f r h
  · exact haltOK_prependTrace env _ _ (haltOK_finalRebootPhase env _) tr f r h

theorem haltOK_runFromFlashUpdate (env : Env) (fs : Files) (zip twrp : String) :
    HaltOK env (runFromFlashUpdate env fs zip twrp) := by
  intro tr f r h
  unfold runFromFlashUpdate at h
  split at h
  all_goals rename_i heq
  · exact haltOK_of_components env _ (haltOK_flashUpdatePhase env fs zip twrp) _ _ _ heq tr f r h
  · exact haltOK_prependTrace env _ _ (haltOK_runFromWipe env _) tr f r h

theorem haltOK_runFromFlashFactory (env : Env) (fs : Files) (zip twrp oxy fact : String) :
    HaltOK env (runFromFlashFactory env fs zip twrp oxy fact) := by
  intro tr f r h
  unfold runFromFlashFactory at h
  split at h
  all_goals rename_i heq
  · exact haltOK_of_components env _ (haltOK_flashFactoryPhase env fs oxy fact) _ _ _ heq tr f r h
  · exact haltOK_prependTrace env _ _ (haltOK_runFromFlashUpdate env _ zip twrp) tr f r h

theorem haltOK_runFromFetch (env : Env) (fs : Files) (product : String) :
    HaltOK env (runFromFetch env fs product) := by
  intro tr f r h
  unfold runFromFetch at h
  split at h
  all_goals rename_i heq
  · exact haltOK_of_components env _ (haltOK_fetchPhase env fs product) _ _ _ heq tr f r h
  · exact haltOK_prependTrace env _ _
      (haltOK_runFromFlashFactory env _ _ _ _ _) tr f r h

theorem haltOK_runFromUnlock (env : Env) (fs : Files) (product : String) :
    HaltOK env (runFromUnlock env fs product) := by
  intro tr f r h
  unfold runFromUnlock at h
  split at h
  all_goals rename_i heq
  · exact haltOK_of_components env _ (haltOK_unlockPhase env fs) _ _ _ heq tr f r h
  · exact haltOK_prependTrace env _ _ (haltOK_runFromFetch env _ product) tr f r h

theorem haltOK_runFromIdentify (env : Env) (fs : Files) :
    HaltOK env (runFromIdentify env fs) := by
  intro tr f r h
  unfold runFromIdentify at h
  split at h
  all_goals rename_i heq
  · exact haltOK_of_components env _ (haltOK_identifyPhase env fs) _ _ _ heq tr f r h
  · exact haltOK_prependTrace env _ _ (haltOK_runFromUnlock env _ _) tr f r h

theorem haltOK_runFromVerify (env : Env) (fs : Files) :
    HaltOK env (runFromVerify env fs) := by
  intro tr f r h
  unfold runFromVerify at h
  split at h
  all_goals rename_i heq
  · exact haltOK_of_components env _ (haltOK_verifyFastbootPhase env fs) _ _ _ heq tr f r h
  · exact haltOK_prependTrace env _ _ (haltOK_runFromIdentify env _) tr f r h

theorem haltOK_runFromDetect (env : Env) (fs : Files) :
    HaltOK env (runFromDetect env fs) := by
  intro tr f r h
  unfold runFromDetect at h
  split at h
  all_goals rename_i heq
  · exact haltOK_of_components env _ (haltOK_detectPhase env fs) _ _ _ heq tr f r h
  · exact haltOK_prependTrace env _ _ (haltOK_runFromVerify env _) tr f r h

/-- The start phase either panics with an empty trace (only when
`os.Executable` failed) or exits with a documented code and the `exit`
helper's trace tail. -/
theorem startPhase_discipline (env : Env) :
    ∀ tr f r, startPhase env = .halt tr f r →
      (r = .panicked ∧ env.exeErr ≠ none ∧ tr = []) ∨
      (∃ c, r = .exited c ∧ c ∈ DocCodes ∧ ∃ t, tr = t ++ exitTail env) := by
  intro tr f r h
  unfold startPhase at h
  by_cases h1 : env.versionFlag
  · rw [if_pos h1] at h
    exact Or.inr (haltOK_exitHalt env _ _ _ (by decide) tr f r h)
  · rw [if_neg h1] at h
    rcases h2 : env.exeErr with _ | e2 <;> simp only [h2] at h
    · rcases h3 : env.setenvErr with _ | e3 <;> simp only [h3] at h
      · rcases h4 : env.consentErr with _ | e4 <;> simp only [h4] at h
        · by_cases h5 : env.consentLine = "yes" <;> simp only [h5, reduceIte] at h
          · rcases h6 : env.adbToolchainErr with _ | e6 <;> simp only [h6] at h
            · rcases h7 : env.fbToolchainErr with _ | e7 <;> simp only [h7] at h
              · exact absurd h (by simp)
              · exact Or.inr (haltOK_exitHalt env _ _ _ (by decide) tr f r h)
            · exact Or.inr (haltOK_exitHalt env _ _ _ (by decide) tr f r h)
          · exact Or.inr (haltOK_exitHalt env _ _ _ (by decide) tr f r h)
        · exact Or.inr (haltOK_exitHalt env _ _ _ (by decide) tr f r h)
      · exact Or.inr (haltOK_exitHalt env _ _ _ (by decide) tr f r h)
    · rw [StepOut.halt.injEq] at h
      exact Or.inl ⟨h.2.2.symm, by simp [h2], h.1.symm⟩

/-- Master discipline lemma for the whole run. -/
theorem installerMain_discipline (env : Env) :
    ∀ tr f r, installerMain env = .halt tr f r →
      (r = .panicked ∧ env.exeErr ≠ none ∧ tr = []) ∨
      (∃ c, r = .exited c ∧ c ∈ DocCodes ∧ ∃ t, tr = t ++ exitTail env) := by
  intro tr f r h
  unfold installerMain at h
  split at h
  all_goals rename_i heq
  · rename_i trX fX rX
    rw [StepOut.halt.injEq] at h
    obtain ⟨htr, hf, hr⟩ := h
    rcases startPhase_discipline env trX fX rX heq with ⟨hp, he, htr0⟩ | ⟨c, hc, hmem, t, ht⟩
    · exact Or.inl ⟨hr ▸ hp, he, by rw [← htr, htr0]⟩
    · exact Or.inr ⟨c, hr ▸ hc, hmem, t, by rw [← htr, ht]⟩
  · exact Or.inr (haltOK_prependTrace env _ _ (haltOK_runFromDetect env _) tr f r h)

/-! ### C6 — exit-code totality -/

/-- C6 as stated is refuted at this concrete environment: when
`os.Executable()` fails, the run terminates by panicking — the Go runtime's
own status, not any documented exit code — so not every execution path
terminates the process with a documented code. -/
theorem c6_counterexample :
    (installerMain { envBase with exeErr := some "boom" }).outRes = some .panicked ∧
    RunResult.panicked ∉ DocCodes.map RunResult.exited := by
  exact ⟨rfl, by decide⟩

/-- C6 (amended): every run that terminates through the program's `exit`
helper does so with exactly one documented code — `Success`, the reserved
success band, or the reserved error band (conjunct 1) — and the only other
termination is the panic on `os.Executable()` failure, which bypasses `exit`
(conjunct 2). -/
theorem c6_exit_code_totality (env : Env) :
    (∀ tr f c, installerMain env = .halt tr f (.exited c) → c ∈ DocCodes) ∧
    (∀ tr f, installerMain env = .halt tr f .panicked → env.exeErr ≠ none) := by
  constructor
  · intro tr f c h
    rcases installerMain_discipline env tr f (.exited c) h with
      ⟨hp, _, _⟩ | ⟨c2, hc2, hmem, _, _⟩
    · exact absurd hp (by simp)
    · rw [RunResult.exited.injEq] at hc2
      exact hc2 ▸ hmem
  · intro tr f h
    rcases installerMain_discipline env tr f .panicked h with
      ⟨_, he, _⟩ | ⟨c2, hc2, _, _, _⟩
    · exact he
    · exact absurd hc2 (by simp)

/-- Closed witness for `c6_exit_code_totality`: the fully successful run exits
with the documented code `Success`. -/
theorem c6_witness : Success ∈ DocCodes :=
  (c6_exit_code_totality envBase).1 (installerMain envBase).outTrace
    (installerMain envBase).outFiles Success rfl

/-! ### C10 — Windows exit pause -/

/-- C10 as stated is refuted at this concrete environment: on Windows, the
`os.Executable()` failure path panics, terminating the process with an empty
trace — no "Press [Enter] to exit..." prompt is printed and no console read
blocks — so not every termination path on Windows waits for a keypress. -/
theorem c10_counterexample :
    ({ envBase with goos := "windows", exeErr := some "boom" } : Env).goos = "windows" ∧
    (installerMain { envBase with goos := "windows", exeErr := some "boom" }).outTrace =
      [] ∧
    (installerMain { envBase with goos := "windows", exeErr := some "boom" }).outRes =
      some .panicked := by
  exact ⟨rfl, rfl, rfl⟩

/-- C10 (amended): on Windows every termination through the program's `exit`
helper first prints "\nPress [Enter] to exit..." and blocks reading a console
line immediately before exiting — the trace's last two events are that prompt
and read (conjunct 1); on other platforms `exit` appends nothing and
terminates immediately (conjunct 2).  The panic path of `c10_counterexample`
is the one termination that bypasses this pause. -/
theorem c10_windows_exit_pause (env : Env) :
    (∀ tr f c, env.goos = "windows" → installerMain env = .halt tr f (.exited c) →
      tr.drop (tr.length - 2) =
        [Event.echo "\nPress [Enter] to exit...", Event.readLine]) ∧
    (env.goos ≠ "windows" → exitTail env = []) := by
  constructor
  · intro tr f c hg h
    rcases installerMain_discipline env tr f (.exited c) h with
      ⟨hp, _, _⟩ | ⟨c2, hc2, hmem, t, ht⟩
    · exact absurd hp (by simp)
    · have htail : exitTail env =
        [Event.echo "\nPress [Enter] to exit...", Event.readLine] := by
          unfold exitTail
          rw [if_pos hg]
      rw [htail] at ht
      subst ht
      have hlen : (t ++ [Event.echo "\nPress [Enter] to exit...",
          Event.readLine]).length - 2 = t.length := by
        simp
      rw [hlen]
      exact List.drop_left t _
  · intro hg
    unfold exitTail
    rw [if_neg hg]

/-- Closed witness for `c10_windows_exit_pause`: a fully successful Windows
run ends its trace with the prompt and the blocking read. -/
theorem c10_witness :
    ((installerMain { envBase with goos := "windows" }).outTrace).drop
      (((installerMain { envBase with goos := "windows" }).outTrace).length - 2) =
      [Event.echo "\nPress [Enter] to exit...", Event.readLine] :=
  (c10_windows_exit_pause { envBase with goos := "windows" }).1
    (installerMain { envBase with goos := "windows" }).outTrace
    (installerMain { envBase with goos := "windows" }).outFiles Success rfl rfl

end Installer
